import Mathlib

/-!
Verification development for the healthcare data-normalization pipeline in
`src/data_processor.py` (class `DataProcessor`) and its driver `src/main.py`.

Modelling conventions (shallow embedding of the PySpark program):

* A Spark DataFrame is modelled as a Lean `List` of rows: the logical row
  sequence of a deterministic single-partition evaluation of the relational
  operators.  Rows are structures whose fields model the named columns.
* A nullable column value is an `Option`; `none` models SQL `NULL`.
  All CSV-read columns are `Option String`; the parsed `visit_date`
  timestamp (built by `to_timestamp(col("visit_datetime"))`) is modelled as
  `Option Nat`, naturals being ordered chronologically.  The constant
  `cutoffTs` denotes the timestamp `2021-12-31 00:00:00` that the string
  literal `"2021-12-31"` is cast to in `derive_patient_status`.
* `dropDuplicates([cols])` keeps the first row of each key group
  (`dedupByKey`); `dropDuplicates()` with no argument is `dedupByKey id`.
  As in Spark, two `NULL` keys fall into the same duplicate group.
* Join conditions (`on=[...]`) use SQL equality: a `NULL` key never matches
  anything, including another `NULL` (`nullEqS`).  `how="left"` joins emit
  one output row per matching pair, or a single all-null right side when no
  row matches (`leftJoin`, `optMatches`).
* `monotonically_increasing_id()` over the single row sequence yields the
  0-based row index, so `monotonically_increasing_id() + 1` is modelled by
  `assignIds` attaching `index + 1` to each row of the sequence.
* `orderBy(c1, c2)` is a stable ascending sort on `(c1, c2)` with `NULL`
  ordered first (Spark's default `NULLS FIRST`), modelled by Mathlib's
  `List.insertionSort` with the decidable total preorder built from `chLe`.
* Spark column comparisons use three-valued logic: `x != y` is `NULL`
  (hence not `TRUE`, hence dropped by `filter`) whenever either side is
  `NULL` (`neqBothSome`), and `when(c, v).otherwise(w)` yields `w` whenever
  `c` is `NULL` or false — in particular `when(last_visit <= cutoff, ...)`
  with a `NULL` `last_visit` falls through to the `otherwise` branch.
-/

/-- One row of the flat legacy dataset, i.e. one record of the DataFrame
`self.df` read in `DataProcessor.__init__`, restricted to the columns that
the embedded methods read.  Every CSV column is nullable; `visit_date` is
the timestamp parsed from `visit_datetime`. -/
structure Row where
  patient_id : Option String
  patient_first_name : Option String
  patient_last_name : Option String
  patient_date_of_birth : Option String
  patient_gender : Option String
  patient_address_line1 : Option String
  patient_address_line2 : Option String
  patient_city : Option String
  patient_state : Option String
  patient_zip : Option String
  patient_phone : Option String
  patient_email : Option String
  insurance_id : Option String
  insurance_payer_name : Option String
  insurance_policy_number : Option String
  insurance_group_number : Option String
  insurance_plan_type : Option String
  billing_id : Option String
  billing_total_charge : Option String
  billing_amount_paid : Option String
  billing_date : Option String
  billing_payment_status : Option String
  doctor_name : Option String
  doctor_title : Option String
  doctor_department : Option String
  clinic_name : Option String
  room_number : Option String
  primary_diagnosis_code : Option String
  primary_diagnosis_desc : Option String
  secondary_diagnosis_code : Option String
  secondary_diagnosis_desc : Option String
  treatment_code : Option String
  treatment_desc : Option String
  prescription_id : Option String
  prescription_drug_name : Option String
  prescription_dosage : Option String
  prescription_frequency : Option String
  prescription_duration_days : Option String
  lab_order_id : Option String
  lab_test_code : Option String
  lab_name : Option String
  lab_result_value : Option String
  lab_result_units : Option String
  lab_result_date : Option String
  visit_id : Option String
  visit_type : Option String
  visit_date : Option Nat
deriving DecidableEq, Repr

/-- A row whose every column is `NULL`; concrete examples override the
columns they need. -/
def blankRow : Row :=
  ⟨none, none, none, none, none, none, none, none, none, none, none, none,
   none, none, none, none, none, none, none, none, none, none, none, none,
   none, none, none, none, none, none, none, none, none, none, none, none,
   none, none, none, none, none, none, none, none, none, none, none⟩

/-- The timestamp `2021-12-31 00:00:00` that Spark casts the literal
`"2021-12-31"` to in `derive_patient_status`. -/
def cutoffTs : Nat := 20211231

/-- SQL equality of two nullable values, as used by Spark join conditions:
`NULL` matches nothing, not even another `NULL`. -/
def nullEqS (a b : Option String) : Bool :=
  match a, b with
  | some x, some y => decide (x = y)
  | _, _ => false

theorem nullEqS_eq_true_iff (a b : Option String) :
    nullEqS a b = true ↔ ∃ x, a = some x ∧ b = some x := by
  cases a <;> cases b <;> simp [nullEqS, eq_comm]

/-- Spark's `col(x) != col(y)` evaluated by `filter`: it keeps a row only
when the comparison is `TRUE`, which requires both sides non-`NULL` and
different.  A `NULL` on either side makes the comparison `NULL`, which
`filter` drops. -/
def neqBothSome (a b : Option String) : Bool :=
  match a, b with
  | some x, some y => decide (x ≠ y)
  | _, _ => false

theorem neqBothSome_eq_true_iff (a b : Option String) :
    neqBothSome a b = true ↔ ∃ x y, a = some x ∧ b = some y ∧ x ≠ y := by
  cases a <;> cases b <;> simp [neqBothSome]

/-- `dropDuplicates` keyed by `k`, keeping the first row of each key group;
`seen` accumulates the keys already emitted. -/
def dedupByKeyAux {α β : Type} [DecidableEq β] (k : α → β) :
    List α → List β → List α
  | [], _ => []
  | a :: l, seen =>
      if k a ∈ seen then dedupByKeyAux k l seen
      else a :: dedupByKeyAux k l (k a :: seen)

/-- `df.dropDuplicates([cols])` with key selector `k`; `dedupByKey id` is
`df.dropDuplicates()` (exact-duplicate removal). -/
def dedupByKey {α β : Type} [DecidableEq β] (k : α → β) (l : List α) : List α :=
  dedupByKeyAux k l []

/-- A left outer join: one output row per matching pair, or one row with an
absent right side when nothing matches. -/
def leftJoin {α β γ : Type} (l : List α) (r : List β) (m : α → β → Bool)
    (f : α → Option β → γ) : List γ :=
  l.flatMap fun a =>
    match r.filter (m a) with
    | [] => [f a none]
    | b :: bs => (b :: bs).map fun x => f a (some x)

/-- The right-hand sides a left join pairs one left row with: each matching
row, or a single `none` when there is no match. -/
def optMatches {δ : Type} (dim : List δ) (m : δ → Bool) : List (Option δ) :=
  match dim.filter m with
  | [] => [none]
  | d :: ds => (d :: ds).map some

/-- Attach `monotonically_increasing_id()`-style row indices (starting at
`i`) to a row sequence. -/
def assignIdsFrom {α β : Type} (f : Nat → α → β) (i : Nat) : List α → List β
  | [] => []
  | a :: l => f i a :: assignIdsFrom f (i + 1) l

/-- `withColumn(id_col, monotonically_increasing_id() + 1)` over the single
row sequence: row at 0-based index `i` receives the value `i + 1` (the
builder `f` is applied to `i`; each builder adds 1 itself). -/
def assignIds {α β : Type} (f : Nat → α → β) (l : List α) : List β :=
  assignIdsFrom f 0 l

/-- Ascending comparison of char lists, the order underlying string
comparison; structural, so that the kernel can evaluate it. -/
def chLe : List Char → List Char → Bool
  | [], _ => true
  | _ :: _, [] => false
  | a :: as, b :: bs => if a = b then chLe as bs else decide (a < b)

/-- Ascending string comparison used by `orderBy`. -/
def strLe (a b : String) : Bool := chLe a.data b.data

/-- Ascending comparison of nullable strings with `NULLS FIRST`, Spark's
default ascending sort order. -/
def oleB : Option String → Option String → Bool
  | none, _ => true
  | some _, none => false
  | some a, some b => strLe a b

/-- Strict part of `oleB`. -/
def oltB (a b : Option String) : Bool := oleB a b && !oleB b a

theorem chLe_refl (as : List Char) : chLe as as = true := by
  induction as with
  | nil => rfl
  | cons a as ih => simp [chLe, ih]

theorem chLe_total (as bs : List Char) : chLe as bs = true ∨ chLe bs as = true := by
  induction as generalizing bs with
  | nil => exact Or.inl rfl
  | cons a as ih =>
    cases bs with
    | nil => exact Or.inr rfl
    | cons b bs =>
      by_cases hab : a = b
      · subst hab
        simpa [chLe] using ih bs
      · rcases lt_trichotomy a b with h | h | h
        · exact Or.inl (by simp [chLe, hab, h])
        · exact absurd h hab
        · exact Or.inr (by simp [chLe, Ne.symm hab, h, not_lt_of_gt h])

theorem chLe_trans {as bs cs : List Char} (h₁ : chLe as bs = true)
    (h₂ : chLe bs cs = true) : chLe as cs = true := by
  induction as generalizing bs cs with
  | nil => rfl
  | cons a as ih =>
    cases bs with
    | nil => simp [chLe] at h₁
    | cons b bs =>
      cases cs with
      | nil => simp [chLe] at h₂
      | cons c cs =>
        by_cases hab : a = b <;> by_cases hbc : b = c
        · subst hab; subst hbc
          simp only [chLe, if_pos rfl] at h₁ h₂ ⊢
          exact ih h₁ h₂
        · subst hab
          simp only [chLe, if_pos rfl] at h₁
          simpa [chLe, hbc] using h₂
        · subst hbc
          simpa [chLe, hab] using h₁
        · simp only [chLe, if_neg hab, decide_eq_true_eq] at h₁
          simp only [chLe, if_neg hbc, decide_eq_true_eq] at h₂
          have hac : a < c := lt_trans h₁ h₂
          simp [chLe, ne_of_lt hac, hac]

theorem chLe_antisymm {as bs : List Char} (h₁ : chLe as bs = true)
    (h₂ : chLe bs as = true) : as = bs := by
  induction as generalizing bs with
  | nil =>
    cases bs with
    | nil => rfl
    | cons b bs => simp [chLe] at h₂
  | cons a as ih =>
    cases bs with
    | nil => simp [chLe] at h₁
    | cons b bs =>
      by_cases hab : a = b
      · subst hab
        simp only [chLe, if_pos rfl] at h₁ h₂
        rw [ih h₁ h₂]
      · simp only [chLe, if_neg hab, decide_eq_true_eq] at h₁
        simp only [chLe, if_neg (Ne.symm hab), decide_eq_true_eq] at h₂
        exact absurd h₂ (not_lt_of_gt h₁)

theorem strLe_total (a b : String) : strLe a b = true ∨ strLe b a = true :=
  chLe_total a.data b.data

theorem strLe_trans {a b c : String} (h₁ : strLe a b = true)
    (h₂ : strLe b c = true) : strLe a c = true := chLe_trans h₁ h₂

theorem strLe_antisymm {a b : String} (h₁ : strLe a b = true)
    (h₂ : strLe b a = true) : a = b := by
  cases a; cases b
  exact congrArg String.mk (chLe_antisymm h₁ h₂)

theorem oleB_total (a b : Option String) : oleB a b = true ∨ oleB b a = true := by
  cases a <;> cases b <;> simp [oleB]
  exact strLe_total _ _

theorem oleB_trans {a b c : Option String} (h₁ : oleB a b = true)
    (h₂ : oleB b c = true) : oleB a c = true := by
  cases a <;> cases b <;> cases c <;> simp_all [oleB]
  exact strLe_trans h₁ h₂

theorem oleB_antisymm {a b : Option String} (h₁ : oleB a b = true)
    (h₂ : oleB b a = true) : a = b := by
  cases a <;> cases b <;> simp_all [oleB]
  exact strLe_antisymm h₁ h₂

theorem oltB_asymm {a b : Option String} (h : oltB a b = true) :
    ¬ oltB b a = true := by
  simp only [oltB, Bool.and_eq_true, Bool.not_eq_true'] at h ⊢
  intro hc
  exact absurd hc.1 (by simp [h.2])

theorem oltB_of_ne_of_not_gt {a b : Option String} (hne : a ≠ b)
    (h : ¬ oltB b a = true) : oltB a b = true := by
  simp only [oltB, Bool.and_eq_true, Bool.not_eq_true'] at h ⊢
  have hba : oleB b a = false := by
    by_contra hc
    have hba' : oleB b a = true := by simpa using hc
    by_cases hab : oleB a b = true
    · exact hne (oleB_antisymm hab hba')
    · exact h ⟨hba', by simpa using hab⟩
  have hab : oleB a b = true := by
    rcases oleB_total a b with h' | h'
    · exact h'
    · exact absurd h' (by simp [hba])
  exact ⟨hab, hba⟩

theorem oltB_trans {a b c : Option String} (h₁ : oltB a b = true)
    (h₂ : oltB b c = true) : oltB a c = true := by
  simp only [oltB, Bool.and_eq_true, Bool.not_eq_true'] at h₁ h₂ ⊢
  refine ⟨oleB_trans h₁.1 h₂.1, ?_⟩
  by_cases hca : oleB c a = true
  · have : oleB c b = true := oleB_trans hca h₁.1
    simp [this] at h₂
  · simpa using hca

/-- Lexicographic ascending comparison on a pair of nullable string
columns, modelling `orderBy(c1, c2)`. -/
def pairLEb (a b : Option String × Option String) : Bool :=
  if a.1 = b.1 then oleB a.2 b.2 else oltB a.1 b.1

theorem pairLEb_total (a b : Option String × Option String) :
    pairLEb a b = true ∨ pairLEb b a = true := by
  by_cases h : a.1 = b.1
  · simpa [pairLEb, h] using oleB_total a.2 b.2
  · by_cases h2 : oltB b.1 a.1 = true
    · exact Or.inr (by simp [pairLEb, Ne.symm h, h2])
    · exact Or.inl (by simp [pairLEb, h, oltB_of_ne_of_not_gt h h2])

theorem pairLEb_trans {a b c : Option String × Option String}
    (h₁ : pairLEb a b = true) (h₂ : pairLEb b c = true) : pairLEb a c = true := by
  by_cases hab : a.1 = b.1 <;> by_cases hbc : b.1 = c.1
  · simp only [pairLEb, if_pos hab] at h₁
    simp only [pairLEb, if_pos hbc] at h₂
    simp [pairLEb, hab.trans hbc, oleB_trans h₁ h₂]
  · simp only [pairLEb, if_neg hbc] at h₂
    have : a.1 ≠ c.1 := hab ▸ hbc
    simp only [pairLEb, if_neg this]
    rw [hab]
    exact h₂
  · simp only [pairLEb, if_neg hab] at h₁
    have : a.1 ≠ c.1 := fun h => hab (h.trans hbc.symm)
    simp only [pairLEb, if_neg this]
    exact hbc ▸ h₁
  · simp only [pairLEb, if_neg hab] at h₁
    simp only [pairLEb, if_neg hbc] at h₂
    have hac : oltB a.1 c.1 = true := oltB_trans h₁ h₂
    have : a.1 ≠ c.1 := by
      rintro h
      exact oltB_asymm h₁ (h ▸ h₂)
    simp [pairLEb, this, hac]

theorem pairLEb_antisymm {a b : Option String × Option String}
    (h₁ : pairLEb a b = true) (h₂ : pairLEb b a = true) : a = b := by
  by_cases hab : a.1 = b.1
  · simp only [pairLEb, if_pos hab] at h₁
    simp only [pairLEb, if_pos hab.symm] at h₂
    exact Prod.ext hab (oleB_antisymm h₁ h₂)
  · simp only [pairLEb, if_neg hab] at h₁
    simp only [pairLEb, if_neg (Ne.symm hab)] at h₂
    exact absurd h₂ (oltB_asymm h₁)

theorem mem_of_mem_dedupByKeyAux {α β : Type} [DecidableEq β] {k : α → β}
    {l : List α} {seen : List β} {x : α} (h : x ∈ dedupByKeyAux k l seen) :
    x ∈ l := by
  induction l generalizing seen with
  | nil => simp [dedupByKeyAux] at h
  | cons a l ih =>
    by_cases hs : k a ∈ seen
    · simp only [dedupByKeyAux, if_pos hs] at h
      exact List.mem_cons_of_mem _ (ih h)
    · simp only [dedupByKeyAux, if_neg hs, List.mem_cons] at h
      rcases h with h | h
      · exact h ▸ List.mem_cons_self _ _
      · exact List.mem_cons_of_mem _ (ih h)

theorem mem_map_key_dedupByKeyAux {α β : Type} [DecidableEq β] {k : α → β}
    {l : List α} {seen : List β} {b : β} :
    b ∈ (dedupByKeyAux k l seen).map k ↔ b ∈ l.map k ∧ b ∉ seen := by
  induction l generalizing seen with
  | nil => simp [dedupByKeyAux]
  | cons a l ih =>
    by_cases hs : k a ∈ seen
    · simp only [dedupByKeyAux, if_pos hs, ih, List.map_cons, List.mem_cons]
      constructor
      · rintro ⟨h1, h2⟩
        exact ⟨Or.inr h1, h2⟩
      · rintro ⟨h1 | h1, h2⟩
        · exact absurd (h1 ▸ hs) h2
        · exact ⟨h1, h2⟩
    · simp only [dedupByKeyAux, if_neg hs, List.map_cons, List.mem_cons, ih,
        List.mem_cons]
      constructor
      · rintro (rfl | ⟨h1, h2⟩)
        · exact ⟨Or.inl rfl, hs⟩
        · exact ⟨Or.inr h1, fun hb => h2 (Or.inr hb)⟩
      · rintro ⟨h1 | h1, h2⟩
        · exact Or.inl h1
        · by_cases hba : b = k a
          · exact Or.inl hba
          · exact Or.inr ⟨h1, fun hb => hb.elim hba h2⟩

theorem nodup_map_key_dedupByKeyAux {α β : Type} [DecidableEq β] (k : α → β)
    (l : List α) (seen : List β) : ((dedupByKeyAux k l seen).map k).Nodup := by
  induction l generalizing seen with
  | nil => simp [dedupByKeyAux]
  | cons a l ih =>
    by_cases hs : k a ∈ seen
    · simpa [dedupByKeyAux, if_pos hs] using ih seen
    · simp only [dedupByKeyAux, if_neg hs, List.map_cons, List.nodup_cons]
      refine ⟨fun hmem => ?_, ih _⟩
      exact (mem_map_key_dedupByKeyAux.mp hmem).2 (List.mem_cons_self _ _)

theorem exists_rep_dedupByKeyAux {α β : Type} [DecidableEq β] {k : α → β}
    {l : List α} {x : α} (hx : x ∈ l) :
    ∀ seen, k x ∉ seen → ∃ y ∈ dedupByKeyAux k l seen, k y = k x := by
  induction l with
  | nil => cases hx
  | cons a l ih =>
    intro seen hseen
    by_cases hs : k a ∈ seen
    · simp only [dedupByKeyAux, if_pos hs]
      rcases List.mem_cons.mp hx with rfl | hx'
      · exact absurd hs hseen
      · exact ih hx' seen hseen
    · simp only [dedupByKeyAux, if_neg hs]
      rcases List.mem_cons.mp hx with rfl | hx'
      · exact ⟨_, List.mem_cons_self _ _, rfl⟩
      · by_cases hk : k x = k a
        · exact ⟨a, List.mem_cons_self _ _, hk.symm⟩
        · have hnotin : k x ∉ k a :: seen := by
            intro hc
            rcases List.mem_cons.mp hc with h | h
            · exact hk h
            · exact hseen h
          rcases ih hx' (k a :: seen) hnotin with ⟨y, hy, hky⟩
          exact ⟨y, List.mem_cons_of_mem _ hy, hky⟩

theorem mem_of_mem_dedupByKey {α β : Type} [DecidableEq β] {k : α → β}
    {l : List α} {x : α} (h : x ∈ dedupByKey k l) : x ∈ l :=
  mem_of_mem_dedupByKeyAux h

theorem mem_map_key_dedupByKey {α β : Type} [DecidableEq β] (k : α → β)
    (l : List α) (b : β) : b ∈ (dedupByKey k l).map k ↔ b ∈ l.map k := by
  simpa [dedupByKey] using
    (@mem_map_key_dedupByKeyAux α β _ k l [] b)

theorem nodup_map_key_dedupByKey {α β : Type} [DecidableEq β] (k : α → β)
    (l : List α) : ((dedupByKey k l).map k).Nodup :=
  nodup_map_key_dedupByKeyAux k l []

theorem exists_rep_dedupByKey {α β : Type} [DecidableEq β] {k : α → β}
    {l : List α} {x : α} (hx : x ∈ l) :
    ∃ y ∈ dedupByKey k l, k y = k x :=
  exists_rep_dedupByKeyAux hx [] (by simp)

theorem nodup_dedupById {α : Type} [DecidableEq α] (l : List α) :
    (dedupByKey id l).Nodup := by
  have h := nodup_map_key_dedupByKey id l
  simpa using h

theorem mem_dedupById {α : Type} [DecidableEq α] (l : List α) (x : α) :
    x ∈ dedupByKey id l ↔ x ∈ l := by
  have h := mem_map_key_dedupByKey id l x
  simpa using h

theorem length_dedupByKey {α β : Type} [DecidableEq β] (k : α → β)
    (l : List α) : (dedupByKey k l).length = ((l.map k).dedup).length := by
  have h1 : ((dedupByKey k l).map k).Nodup := nodup_map_key_dedupByKey k l
  have h2 : ((l.map k).dedup).Nodup := (l.map k).nodup_dedup
  have hperm : List.Perm ((dedupByKey k l).map k) ((l.map k).dedup) :=
    (List.perm_ext_iff_of_nodup h1 h2).mpr fun b => by
      rw [mem_map_key_dedupByKey, List.mem_dedup]
  have := hperm.length_eq
  simpa [List.length_map] using this

theorem dedupById_perm_of_perm {α : Type} [DecidableEq α] {l₁ l₂ : List α}
    (h : List.Perm l₁ l₂) :
    List.Perm (dedupByKey id l₁) (dedupByKey id l₂) :=
  (List.perm_ext_iff_of_nodup (nodup_dedupById l₁) (nodup_dedupById l₂)).mpr
    fun a => by rw [mem_dedupById, mem_dedupById, h.mem_iff]

theorem mem_leftJoin_of_match {α β γ : Type} {l : List α} {r : List β}
    {m : α → β → Bool} {f : α → Option β → γ} {a : α} {b : β}
    (ha : a ∈ l) (hb : b ∈ r.filter (m a)) :
    f a (some b) ∈ leftJoin l r m f := by
  unfold leftJoin
  rw [List.mem_flatMap]
  refine ⟨a, ha, ?_⟩
  cases hfil : r.filter (m a) with
  | nil => rw [hfil] at hb; cases hb
  | cons x xs =>
    rw [hfil] at hb
    exact List.mem_map.mpr ⟨b, hb, rfl⟩

theorem mem_leftJoin_of_no_match {α β γ : Type} {l : List α} {r : List β}
    {m : α → β → Bool} {f : α → Option β → γ} {a : α}
    (ha : a ∈ l) (hfil : r.filter (m a) = []) :
    f a none ∈ leftJoin l r m f := by
  unfold leftJoin
  rw [List.mem_flatMap]
  exact ⟨a, ha, by simp [hfil]⟩

theorem map_assignIdsFrom {α β δ : Type} (f : Nat → α → β) (g : β → δ)
    (h : ∀ i a, g (f i a) = g (f 0 a)) :
    ∀ (l : List α) (i : Nat),
      (assignIdsFrom f i l).map g = l.map fun a => g (f 0 a) := by
  intro l
  induction l with
  | nil => intro i; rfl
  | cons a l ih =>
    intro i
    simp [assignIdsFrom, h i a, ih]

theorem map_key_assignIdsFrom {α β : Type} (f : Nat → α → β) (key : β → Nat)
    (h : ∀ i a, key (f i a) = i + 1) :
    ∀ (l : List α) (i : Nat),
      (assignIdsFrom f i l).map key = List.range' (i + 1) l.length := by
  intro l
  induction l with
  | nil => intro i; rfl
  | cons a l ih =>
    intro i
    simp [assignIdsFrom, h i a, ih, List.range'_succ]

theorem length_assignIdsFrom {α β : Type} (f : Nat → α → β) :
    ∀ (l : List α) (i : Nat), (assignIdsFrom f i l).length = l.length := by
  intro l
  induction l with
  | nil => intro i; rfl
  | cons a l ih => intro i; simp [assignIdsFrom, ih]

/-- Business key of `DimProvider`: the `(doctor_name, doctor_title,
doctor_department)` triple selected by `create_dim_provider`. -/
def providerKey (r : Row) : Option String × Option String × Option String :=
  (r.doctor_name, r.doctor_title, r.doctor_department)

/-- One row of `DimProvider`. -/
structure ProviderRow where
  provider_id : Nat
  doctor_name : Option String
  doctor_title : Option String
  doctor_department : Option String
deriving DecidableEq, Repr

/-- The sort relation of `create_dim_provider`'s
`orderBy("doctor_title", "doctor_department")`: lexicographic on the title
and department columns only — `doctor_name` is not part of the sort key. -/
def provLE (a b : Option String × Option String × Option String) : Prop :=
  pairLEb (a.2.1, a.2.2) (b.2.1, b.2.2) = true

instance : DecidableRel provLE := fun a b =>
  inferInstanceAs (Decidable (pairLEb (a.2.1, a.2.2) (b.2.1, b.2.2) = true))

instance : IsTotal (Option String × Option String × Option String) provLE :=
  ⟨fun _ _ => pairLEb_total _ _⟩

instance : IsTrans (Option String × Option String × Option String) provLE :=
  ⟨fun _ _ _ h₁ h₂ => pairLEb_trans h₁ h₂⟩

/-- `create_dim_provider` before key assignment: select the three doctor
columns, `dropDuplicates()`, filter out rows with any `NULL` column. -/
def providerBase (src : List Row) :
    List (Option String × Option String × Option String) :=
  (dedupByKey id (src.map providerKey)).filter fun t =>
    t.1.isSome && t.2.1.isSome && t.2.2.isSome

/-- The distinct non-null doctor triples after
`orderBy("doctor_title", "doctor_department")`. -/
def providerSorted (src : List Row) :
    List (Option String × Option String × Option String) :=
  List.insertionSort provLE (providerBase src)

/-- `DataProcessor.create_dim_provider`: distinct fully-populated doctor
triples, ordered by `(doctor_title, doctor_department)`, with
`provider_id = monotonically_increasing_id() + 1`. -/
def create_dim_provider (src : List Row) : List ProviderRow :=
  assignIds (fun i t => ⟨i + 1, t.1, t.2.1, t.2.2⟩) (providerSorted src)

/-- Business key of `DimLocation`: `(clinic_name, room_number)`. -/
def locationKey (r : Row) : Option String × Option String :=
  (r.clinic_name, r.room_number)

/-- One row of `DimLocation`. -/
structure LocationRow where
  location_id : Nat
  clinic_name : Option String
  room_number : Option String
deriving DecidableEq, Repr

/-- The sort relation of `create_dim_location`'s
`orderBy("clinic_name", "room_number")`: lexicographic on the full business
key. -/
def pairLE (a b : Option String × Option String) : Prop := pairLEb a b = true

instance : DecidableRel pairLE := fun a b =>
  inferInstanceAs (Decidable (pairLEb a b = true))

instance : IsTotal (Option String × Option String) pairLE :=
  ⟨fun _ _ => pairLEb_total _ _⟩

instance : IsTrans (Option String × Option String) pairLE :=
  ⟨fun _ _ _ h₁ h₂ => pairLEb_trans h₁ h₂⟩

instance : IsAntisymm (Option String × Option String) pairLE :=
  ⟨fun _ _ h₁ h₂ => pairLEb_antisymm h₁ h₂⟩

/-- `create_dim_location` before key assignment. -/
def locationBase (src : List Row) : List (Option String × Option String) :=
  (dedupByKey id (src.map locationKey)).filter fun t =>
    t.1.isSome && t.2.isSome

/-- The distinct non-null clinic/room pairs after
`orderBy("clinic_name", "room_number")`. -/
def locationSorted (src : List Row) : List (Option String × Option String) :=
  List.insertionSort pairLE (locationBase src)

/-- `DataProcessor.create_dim_location`. -/
def create_dim_location (src : List Row) : List LocationRow :=
  assignIds (fun i t => ⟨i + 1, t.1, t.2⟩) (locationSorted src)

/-- One row of `DimPrimaryDiagnosis`. -/
structure PrimaryDiagRow where
  primary_diagnosis_id : Nat
  primary_diagnosis_code : Option String
  primary_diagnosis_desc : Option String
deriving DecidableEq, Repr

/-- Business key of `DimPrimaryDiagnosis`. -/
def primaryKey (r : Row) : Option String × Option String :=
  (r.primary_diagnosis_code, r.primary_diagnosis_desc)

/-- `create_dim_primary_diagnosis` before key assignment: note that, unlike
the provider and location builders, it applies no `orderBy`. -/
def primaryBase (src : List Row) : List (Option String × Option String) :=
  (dedupByKey id (src.map primaryKey)).filter fun t =>
    t.1.isSome && t.2.isSome

/-- `DataProcessor.create_dim_primary_diagnosis`: ids are assigned in the
deduplicated source order, with no sort step. -/
def create_dim_primary_diagnosis (src : List Row) : List PrimaryDiagRow :=
  assignIds (fun i t => ⟨i + 1, t.1, t.2⟩) (primaryBase src)

/-- One row of `DimSecondaryDiagnosis`. -/
structure SecondaryDiagRow where
  secondary_diagnosis_id : Nat
  secondary_diagnosis_code : Option String
  secondary_diagnosis_desc : Option String
deriving DecidableEq, Repr

/-- Business key of `DimSecondaryDiagnosis`. -/
def secondaryKey (r : Row) : Option String × Option String :=
  (r.secondary_diagnosis_code, r.secondary_diagnosis_desc)

/-- `create_dim_secondary_diagnosis` before key assignment (no `orderBy`). -/
def secondaryBase (src : List Row) : List (Option String × Option String) :=
  (dedupByKey id (src.map secondaryKey)).filter fun t =>
    t.1.isSome && t.2.isSome

/-- `DataProcessor.create_dim_secondary_diagnosis`. -/
def create_dim_secondary_diagnosis (src : List Row) : List SecondaryDiagRow :=
  assignIds (fun i t => ⟨i + 1, t.1, t.2⟩) (secondaryBase src)

/-- One row of `DimTreatment`. -/
structure TreatmentRow where
  treatment_id : Nat
  treatment_code : Option String
  treatment_desc : Option String
deriving DecidableEq, Repr

/-- Business key of `DimTreatment`. -/
def treatmentKey (r : Row) : Option String × Option String :=
  (r.treatment_code, r.treatment_desc)

/-- `create_dim_treatment` before key assignment (no `orderBy`). -/
def treatmentBase (src : List Row) : List (Option String × Option String) :=
  (dedupByKey id (src.map treatmentKey)).filter fun t =>
    t.1.isSome && t.2.isSome

/-- `DataProcessor.create_dim_treatment`. -/
def create_dim_treatment (src : List Row) : List TreatmentRow :=
  assignIds (fun i t => ⟨i + 1, t.1, t.2⟩) (treatmentBase src)

/-- One row of `DimInsurance` (identity dimension; no surrogate key). -/
structure InsuranceRow where
  insurance_id : Option String
  patient_id : Option String
  insurance_payer_name : Option String
  insurance_policy_number : Option String
  insurance_group_number : Option String
  insurance_plan_type : Option String
deriving DecidableEq, Repr

/-- The column projection of `create_dim_insurance`. -/
def insuranceProj (r : Row) : InsuranceRow :=
  ⟨r.insurance_id, r.patient_id, r.insurance_payer_name,
   r.insurance_policy_number, r.insurance_group_number, r.insurance_plan_type⟩

/-- `DataProcessor.create_dim_insurance`: select then
`dropDuplicates(["insurance_id"])`; no null filter. -/
def create_dim_insurance (src : List Row) : List InsuranceRow :=
  dedupByKey (fun x => x.insurance_id) (src.map insuranceProj)

/-- One row of `DimBilling` (identity dimension). -/
structure BillingRow where
  billing_id : Option String
  insurance_id : Option String
  billing_total_charge : Option String
  billing_amount_paid : Option String
  billing_date : Option String
  billing_payment_status : Option String
deriving DecidableEq, Repr

/-- The column projection of `create_dim_billing`. -/
def billingProj (r : Row) : BillingRow :=
  ⟨r.billing_id, r.insurance_id, r.billing_total_charge,
   r.billing_amount_paid, r.billing_date, r.billing_payment_status⟩

/-- `DataProcessor.create_dim_billing`: select then
`dropDuplicates(["billing_id"])`; no null filter. -/
def create_dim_billing (src : List Row) : List BillingRow :=
  dedupByKey (fun x => x.billing_id) (src.map billingProj)

/-- One row of `DimPrescription` (identity dimension). -/
structure PrescriptionRow where
  prescription_id : Option String
  prescription_drug_name : Option String
  prescription_dosage : Option String
  prescription_frequency : Option String
  prescription_duration_days : Option String
deriving DecidableEq, Repr

/-- The column projection of `create_dim_prescription`. -/
def prescriptionProj (r : Row) : PrescriptionRow :=
  ⟨r.prescription_id, r.prescription_drug_name, r.prescription_dosage,
   r.prescription_frequency, r.prescription_duration_days⟩

/-- `DataProcessor.create_dim_prescription`: select, filter
`prescription_id.isNotNull()`, then `dropDuplicates(["prescription_id"])`. -/
def create_dim_prescription (src : List Row) : List PrescriptionRow :=
  dedupByKey (fun x => x.prescription_id)
    ((src.map prescriptionProj).filter fun x => x.prescription_id.isSome)

/-- One row of `DimLabOrder` (identity dimension). -/
structure LabOrderRow where
  lab_order_id : Option String
  lab_test_code : Option String
  lab_name : Option String
  lab_result_value : Option String
  lab_result_units : Option String
  lab_result_date : Option String
deriving DecidableEq, Repr

/-- The column projection of `create_dim_lab_order`. -/
def labOrderProj (r : Row) : LabOrderRow :=
  ⟨r.lab_order_id, r.lab_test_code, r.lab_name, r.lab_result_value,
   r.lab_result_units, r.lab_result_date⟩

/-- `DataProcessor.create_dim_lab_order`: select, filter
`lab_order_id.isNotNull()`, then `dropDuplicates(["lab_order_id"])`. -/
def create_dim_lab_order (src : List Row) : List LabOrderRow :=
  dedupByKey (fun x => x.lab_order_id)
    ((src.map labOrderProj).filter fun x => x.lab_order_id.isSome)

/-- Maximum of a list of timestamps; `none` on the empty list.  Models
`spark_max`, which ignores `NULL` inputs (the callers pass the list of
non-null dates) and is `NULL` on an empty group. -/
def listMax : List Nat → Option Nat
  | [] => none
  | d :: ds =>
      match listMax ds with
      | none => some d
      | some m => some (max d m)

/-- The per-patient aggregate `spark_max("visit_date")` of
`derive_patient_status`: the greatest non-null `visit_date` among the rows
of the `patient_id` group (`NULL` ids form their own group, as in Spark's
`groupBy`), or `NULL` when the group has no non-null date. -/
def lastVisitOf (src : List Row) (p : Option String) : Option Nat :=
  listMax ((src.filter fun r => decide (r.patient_id = p)).filterMap
    fun r => r.visit_date)

/-- One row of the status DataFrame built by `derive_patient_status`. -/
structure StatusRow where
  patient_id : Option String
  last_visit : Option Nat
  patient_status : String
deriving DecidableEq, Repr

/-- `DataProcessor.derive_patient_status`: group by `patient_id`, take the
max `visit_date`, then
`when(last_visit <= "2021-12-31", "Inactive").otherwise("Active")`.
When `last_visit` is `NULL` the `when` condition is `NULL`, so the
`otherwise` branch assigns `"Active"`. -/
def derive_patient_status (src : List Row) : List StatusRow :=
  (dedupByKey id (src.map fun r => r.patient_id)).map fun p =>
    ⟨p, lastVisitOf src p,
     match lastVisitOf src p with
     | some d => if d ≤ cutoffTs then "Inactive" else "Active"
     | none => "Active"⟩

/-- The twelve patient columns selected by `create_dim_patient`. -/
structure PatientAttrs where
  patient_id : Option String
  patient_first_name : Option String
  patient_last_name : Option String
  patient_date_of_birth : Option String
  patient_gender : Option String
  patient_address_line1 : Option String
  patient_address_line2 : Option String
  patient_city : Option String
  patient_state : Option String
  patient_zip : Option String
  patient_phone : Option String
  patient_email : Option String
deriving DecidableEq, Repr

/-- The patient-column projection of `create_dim_patient`. -/
def patientProj (r : Row) : PatientAttrs :=
  ⟨r.patient_id, r.patient_first_name, r.patient_last_name,
   r.patient_date_of_birth, r.patient_gender, r.patient_address_line1,
   r.patient_address_line2, r.patient_city, r.patient_state, r.patient_zip,
   r.patient_phone, r.patient_email⟩

/-- One row of `DimPatient`: the patient columns plus the left-joined
`patient_status`, which is `NULL` when the join found no status row. -/
structure DimPatientRow where
  attrs : PatientAttrs
  patient_status : Option String
deriving DecidableEq, Repr

/-- `DataProcessor.create_dim_patient`: select the patient columns,
`dropDuplicates(["patient_id"])`, then left-join the status DataFrame on
`patient_id` (SQL equality: a `NULL` id matches nothing). -/
def create_dim_patient (src : List Row) : List DimPatientRow :=
  leftJoin (dedupByKey (fun x => x.patient_id) (src.map patientProj))
    (derive_patient_status src)
    (fun a s => nullEqS a.patient_id s.patient_id)
    (fun a so => ⟨a, so.map fun s => s.patient_status⟩)

/-- One row of the `FactVisit` table: the columns selected at the end of
`create_fact_visit`.  The five dimension foreign keys are nullable: they
are `NULL` exactly when the corresponding left join found no match. -/
structure FactRow where
  visit_id : Option String
  patient_id : Option String
  insurance_id : Option String
  billing_id : Option String
  location_id : Option Nat
  provider_id : Option Nat
  primary_diagnosis_id : Option Nat
  secondary_diagnosis_id : Option Nat
  treatment_id : Option Nat
  prescription_id : Option String
  lab_order_id : Option String
  visit_date : Option Nat
  visit_type : Option String
deriving DecidableEq, Repr

/-- Join condition of `fact.join(dim_provider, on=["doctor_name",
"doctor_title", "doctor_department"], how="left")`. -/
def matchProvider (r : Row) (d : ProviderRow) : Bool :=
  nullEqS r.doctor_name d.doctor_name &&
  nullEqS r.doctor_title d.doctor_title &&
  nullEqS r.doctor_department d.doctor_department

/-- Join condition of the location join on `["clinic_name", "room_number"]`. -/
def matchLocation (r : Row) (d : LocationRow) : Bool :=
  nullEqS r.clinic_name d.clinic_name && nullEqS r.room_number d.room_number

/-- Join condition of the primary-diagnosis join. -/
def matchPrimary (r : Row) (d : PrimaryDiagRow) : Bool :=
  nullEqS r.primary_diagnosis_code d.primary_diagnosis_code &&
  nullEqS r.primary_diagnosis_desc d.primary_diagnosis_desc

/-- Join condition of the secondary-diagnosis join. -/
def matchSecondary (r : Row) (d : SecondaryDiagRow) : Bool :=
  nullEqS r.secondary_diagnosis_code d.secondary_diagnosis_code &&
  nullEqS r.secondary_diagnosis_desc d.secondary_diagnosis_desc

/-- Join condition of the treatment join. -/
def matchTreatment (r : Row) (d : TreatmentRow) : Bool :=
  nullEqS r.treatment_code d.treatment_code &&
  nullEqS r.treatment_desc d.treatment_desc

/-- The projected fact rows one source row contributes after the five left
joins of `create_fact_visit`: one row per combination of matches (or the
single all-null-foreign-key combination component when a dimension has no
match).  The five joins compose this way because every join key is a set of
source columns, which the left joins preserve. -/
def factRowsOf (r : Row) (dp : List ProviderRow) (dl : List LocationRow)
    (dpd : List PrimaryDiagRow) (dsd : List SecondaryDiagRow)
    (dt : List TreatmentRow) : List FactRow :=
  (optMatches dp (matchProvider r)).flatMap fun p =>
    (optMatches dl (matchLocation r)).flatMap fun lo =>
      (optMatches dpd (matchPrimary r)).flatMap fun pd =>
        (optMatches dsd (matchSecondary r)).flatMap fun sd =>
          (optMatches dt (matchTreatment r)).map fun t =>
            ⟨r.visit_id, r.patient_id, r.insurance_id, r.billing_id,
             lo.map fun d => d.location_id,
             p.map fun d => d.provider_id,
             pd.map fun d => d.primary_diagnosis_id,
             sd.map fun d => d.secondary_diagnosis_id,
             t.map fun d => d.treatment_id,
             r.prescription_id, r.lab_order_id, r.visit_date, r.visit_type⟩

/-- `DataProcessor.create_fact_visit`: left-join the source to the five
derived dimensions on their business keys, project the fact columns, then
`dropDuplicates(["visit_id"])`. -/
def create_fact_visit (src : List Row) (dp : List ProviderRow)
    (dl : List LocationRow) (dpd : List PrimaryDiagRow)
    (dsd : List SecondaryDiagRow) (dt : List TreatmentRow) : List FactRow :=
  dedupByKey (fun f => f.visit_id)
    (src.flatMap fun r => factRowsOf r dp dl dpd dsd dt)

/-- The fact table as `main.py` builds it: `create_fact_visit` applied to
the five derived dimensions built from the same source. -/
def pipelineFact (src : List Row) : List FactRow :=
  create_fact_visit src (create_dim_provider src) (create_dim_location src)
    (create_dim_primary_diagnosis src) (create_dim_secondary_diagnosis src)
    (create_dim_treatment src)

/-- One row of the comparison relation built by
`verify_fact_join_accuracy`: the doctor attributes recovered through the
provider dimension (`dim_` columns) next to the ones recovered from the
original source via `visit_id`. -/
structure ProvCheckRow where
  visit_id : Option String
  provider_id : Option Nat
  dim_doctor_name : Option String
  dim_doctor_title : Option String
  dim_doctor_department : Option String
  doctor_name : Option String
  doctor_title : Option String
  doctor_department : Option String
deriving DecidableEq, Repr

/-- Intermediate rows of `verify_fact_join_accuracy` after
`fact_df.join(dim_provider, on="provider_id", how="left")` (with the
dimension columns renamed `dim_*`). -/
structure FactProvRow where
  visit_id : Option String
  provider_id : Option Nat
  dim_doctor_name : Option String
  dim_doctor_title : Option String
  dim_doctor_department : Option String
deriving DecidableEq, Repr

/-- The fact-to-dimension join of `verify_fact_join_accuracy`: a `NULL`
`provider_id` matches no dimension row. -/
def provDimJoined (fact : List FactRow) (dp : List ProviderRow) :
    List FactProvRow :=
  leftJoin fact dp (fun f d => decide (f.provider_id = some d.provider_id))
    fun f dOpt =>
      ⟨f.visit_id, f.provider_id,
       dOpt.bind fun d => d.doctor_name,
       dOpt.bind fun d => d.doctor_title,
       dOpt.bind fun d => d.doctor_department⟩

/-- The comparison relation of `verify_fact_join_accuracy`: the previous
join joined back to the original source on `visit_id` (left join; `NULL`
`visit_id` matches nothing). -/
def provJoined (fact : List FactRow) (dp : List ProviderRow)
    (src : List Row) : List ProvCheckRow :=
  leftJoin (provDimJoined fact dp) src
    (fun j r => nullEqS j.visit_id r.visit_id)
    fun j rOpt =>
      ⟨j.visit_id, j.provider_id, j.dim_doctor_name, j.dim_doctor_title,
       j.dim_doctor_department,
       rOpt.bind fun r => r.doctor_name,
       rOpt.bind fun r => r.doctor_title,
       rOpt.bind fun r => r.doctor_department⟩

/-- The `mismatches` DataFrame of `verify_fact_join_accuracy`: rows kept by
`filter((dim_doctor_name != doctor_name) | (dim_doctor_title !=
doctor_title) | (dim_doctor_department != doctor_department))` under
Spark's three-valued logic — the disjunction is `TRUE` exactly when some
disjunct is `TRUE`, and `x != y` is `TRUE` only when both sides are
non-`NULL` and different. -/
def provMismatchRows (fact : List FactRow) (dp : List ProviderRow)
    (src : List Row) : List ProvCheckRow :=
  (provJoined fact dp src).filter fun c =>
    neqBothSome c.dim_doctor_name c.doctor_name ||
    neqBothSome c.dim_doctor_title c.doctor_title ||
    neqBothSome c.dim_doctor_department c.doctor_department

/-- `DataProcessor.verify_fact_join_accuracy`, as the pair it prints:
total joined rows checked and mismatched rows. -/
def verify_fact_join_accuracy (fact : List FactRow) (dp : List ProviderRow)
    (src : List Row) : Nat × Nat :=
  ((provJoined fact dp src).length, (provMismatchRows fact dp src).length)

/-- `DataProcessor.verify_data_completeness`, as the pair it prints:
distinct `visit_id` count of the source and of the fact table. -/
def verify_data_completeness (src : List Row) (fact : List FactRow) :
    Nat × Nat :=
  ((dedupByKey id (src.map fun r => r.visit_id)).length,
   (dedupByKey id (fact.map fun f => f.visit_id)).length)

/-- Modelled from the spec (§4.1 step 3): order the distinct non-null
business-key pairs of the primary-diagnosis dimension by the business-key
columns ascending before assigning surrogate keys.  This step is absent
from `create_dim_primary_diagnosis` in the code (the builder applies no
`orderBy`); the definition exists only to compare the code's assignment
order against the order the spec claims. -/
def primary_diagnosis_spec_step3_order (src : List Row) : List PrimaryDiagRow :=
  assignIds (fun i t => ⟨i + 1, t.1, t.2⟩)
    (List.insertionSort pairLE (primaryBase src))

/-- Source list for the C3 counterexample: two rows whose primary-diagnosis
pairs arrive in descending order. -/
def srcC3 : List Row :=
  [{ blankRow with
      primary_diagnosis_code := some "B"
      primary_diagnosis_desc := some "b" },
   { blankRow with
      primary_diagnosis_code := some "A"
      primary_diagnosis_desc := some "a" }]

/-- Two provider rows sharing the sort key `(doctor_title,
doctor_department)` but with different `doctor_name`s, in one arrival
order... -/
def srcC4a : List Row :=
  [{ blankRow with
      doctor_name := some "A"
      doctor_title := some "T"
      doctor_department := some "D"
      clinic_name := some "C2"
      room_number := some "R2"
      visit_id := some "V1" },
   { blankRow with
      doctor_name := some "B"
      doctor_title := some "T"
      doctor_department := some "D"
      clinic_name := some "C1"
      room_number := some "R1"
      visit_id := some "V2" }]

/-- ... and the same two rows in the other arrival order. -/
def srcC4b : List Row :=
  [{ blankRow with
      doctor_name := some "B"
      doctor_title := some "T"
      doctor_department := some "D"
      clinic_name := some "C1"
      room_number := some "R1"
      visit_id := some "V2" },
   { blankRow with
      doctor_name := some "A"
      doctor_title := some "T"
      doctor_department := some "D"
      clinic_name := some "C2"
      room_number := some "R2"
      visit_id := some "V1" }]

/-- The second row of the C2 counterexample source: same `visit_id` as the
first row but an all-`NULL` doctor triple. -/
def rowC2B : Row := { blankRow with visit_id := some "V1" }

/-- Source for the C2 counterexample (see `rowC2B`). -/
def srcC2 : List Row :=
  [{ blankRow with
      doctor_name := some "A"
      doctor_title := some "T"
      doctor_department := some "D"
      visit_id := some "V1" },
   rowC2B]

/-- Source for the C2 witness: a single row (so `visit_id`s are unique)
whose doctor triple is `NULL`, matching no provider row. -/
def srcC2w : List Row := [rowC2B]

/-- Source for the C6 witness: one patient whose only visit is exactly at
the cutoff timestamp and one whose only visit is on 2022-01-01. -/
def srcC6 : List Row :=
  [{ blankRow with
      patient_id := some "P1"
      visit_id := some "V1"
      visit_date := some cutoffTs },
   { blankRow with
      patient_id := some "P2"
      visit_id := some "V2"
      visit_date := some 20220101 }]

/-- Source for the C7 counterexample and witness: a single patient whose
every `visit_date` is `NULL`. -/
def srcC7 : List Row := [{ blankRow with patient_id := some "P1" }]

/-- Source for the C8 counterexample: one visit with a fully-populated
doctor triple. -/
def srcC8 : List Row :=
  [{ blankRow with
      doctor_name := some "A"
      doctor_title := some "T"
      doctor_department := some "D"
      visit_id := some "V1" }]

/-- The provider dimension of `srcC8` after its single row's
`doctor_name` has been corrupted to `NULL` (the fact table was built
against the uncorrupted dimension). -/
def dimC8corrupt : List ProviderRow := [⟨1, none, some "T", some "D"⟩]

/-- Sources for the C9 witness: two provider rows with distinct sort keys,
in the two arrival orders. -/
def srcC9a : List Row :=
  [{ blankRow with
      doctor_name := some "A"
      doctor_title := some "T"
      doctor_department := some "D"
      visit_id := some "V1" },
   { blankRow with
      doctor_name := some "B"
      doctor_title := some "U"
      doctor_department := some "E"
      visit_id := some "V2" }]

/-- The rows of `srcC9a` in the other arrival order. -/
def srcC9b : List Row :=
  [{ blankRow with
      doctor_name := some "B"
      doctor_title := some "U"
      doctor_department := some "E"
      visit_id := some "V2" },
   { blankRow with
      doctor_name := some "A"
      doctor_title := some "T"
      doctor_department := some "D"
      visit_id := some "V1" }]

theorem eq_of_perm_of_sorted_mem {α : Type} {r : α → α → Prop} :
    ∀ {l₁ l₂ : List α}, List.Perm l₁ l₂ → l₁.Sorted r → l₂.Sorted r →
      (∀ x ∈ l₁, ∀ y ∈ l₁, r x y → r y x → x = y) → l₁ = l₂ := by
  intro l₁
  induction l₁ with
  | nil =>
    intro l₂ h _ _ _
    exact (h.symm.eq_nil).symm ▸ rfl
  | cons a t₁ ih =>
    intro l₂ h s₁ s₂ anti
    cases l₂ with
    | nil => exact absurd h.eq_nil (by simp)
    | cons b t₂ =>
      by_cases hab : a = b
      · subst hab
        have htail : List.Perm t₁ t₂ := h.cons_inv
        have : t₁ = t₂ :=
          ih htail s₁.of_cons s₂.of_cons fun x hx y hy hxy hyx =>
            anti x (List.mem_cons_of_mem _ hx) y (List.mem_cons_of_mem _ hy)
              hxy hyx
        rw [this]
      · have hat2 : a ∈ t₂ := by
          have : a ∈ b :: t₂ := h.mem_iff.mp (List.mem_cons_self _ _)
          exact (List.mem_cons.mp this).resolve_left hab
        have hbt1 : b ∈ t₁ := by
          have : b ∈ a :: t₁ := h.mem_iff.mpr (List.mem_cons_self _ _)
          exact (List.mem_cons.mp this).resolve_left fun hc => hab hc.symm
        have hr1 : r a b := List.rel_of_sorted_cons s₁ b hbt1
        have hr2 : r b a := List.rel_of_sorted_cons s₂ a hat2
        exact absurd
          (anti a (List.mem_cons_self _ _) b (List.mem_cons_of_mem _ hbt1)
            hr1 hr2) hab

theorem providerBase_perm (s₁ s₂ : List Row) (h : List.Perm s₁ s₂) :
    List.Perm (providerBase s₁) (providerBase s₂) :=
  (dedupById_perm_of_perm (h.map providerKey)).filter _

theorem locationBase_perm (s₁ s₂ : List Row) (h : List.Perm s₁ s₂) :
    List.Perm (locationBase s₁) (locationBase s₂) :=
  (dedupById_perm_of_perm (h.map locationKey)).filter _

theorem providerSorted_perm_base (src : List Row) :
    List.Perm (providerSorted src) (providerBase src) :=
  List.perm_insertionSort provLE (providerBase src)

theorem locationSorted_perm_base (src : List Row) :
    List.Perm (locationSorted src) (locationBase src) :=
  List.perm_insertionSort pairLE (locationBase src)

theorem providerSorted_sorted (src : List Row) :
    (providerSorted src).Sorted provLE :=
  List.sorted_insertionSort provLE (providerBase src)

theorem locationSorted_sorted (src : List Row) :
    (locationSorted src).Sorted pairLE :=
  List.sorted_insertionSort pairLE (locationBase src)

theorem locationSorted_eq_of_perm {s₁ s₂ : List Row} (h : List.Perm s₁ s₂) :
    locationSorted s₁ = locationSorted s₂ := by
  have hperm : List.Perm (locationSorted s₁) (locationSorted s₂) :=
    ((locationSorted_perm_base s₁).trans (locationBase_perm s₁ s₂ h)).trans
      (locationSorted_perm_base s₂).symm
  exact List.eq_of_perm_of_sorted hperm (locationSorted_sorted s₁)
    (locationSorted_sorted s₂)

theorem dimLocation_eq_of_perm {s₁ s₂ : List Row} (h : List.Perm s₁ s₂) :
    create_dim_location s₁ = create_dim_location s₂ := by
  unfold create_dim_location
  rw [locationSorted_eq_of_perm h]

theorem providerSorted_eq_of_perm {s₁ s₂ : List Row} (h : List.Perm s₁ s₂)
    (hkeys : ((providerBase s₁).map fun t => (t.2.1, t.2.2)).Nodup) :
    providerSorted s₁ = providerSorted s₂ := by
  have hperm : List.Perm (providerSorted s₁) (providerSorted s₂) :=
    ((providerSorted_perm_base s₁).trans (providerBase_perm s₁ s₂ h)).trans
      (providerSorted_perm_base s₂).symm
  have hkeys₁ :
      ((providerSorted s₁).map fun t => (t.2.1, t.2.2)).Nodup :=
    (((providerSorted_perm_base s₁).map _).nodup_iff).mpr hkeys
  refine eq_of_perm_of_sorted_mem hperm (providerSorted_sorted s₁)
    (providerSorted_sorted s₂) fun x hx y hy hxy hyx => ?_
  have hkey : (x.2.1, x.2.2) = (y.2.1, y.2.2) := pairLEb_antisymm hxy hyx
  exact List.inj_on_of_nodup_map hkeys₁ hx hy hkey

theorem dimProvider_eq_of_perm {s₁ s₂ : List Row} (h : List.Perm s₁ s₂)
    (hkeys : ((providerBase s₁).map fun t => (t.2.1, t.2.2)).Nodup) :
    create_dim_provider s₁ = create_dim_provider s₂ := by
  unfold create_dim_provider
  rw [providerSorted_eq_of_perm h hkeys]

theorem map_attrs_create_dim_provider (src : List Row) :
    (create_dim_provider src).map
        (fun d => (d.doctor_name, d.doctor_title, d.doctor_department)) =
      providerSorted src := by
  unfold create_dim_provider assignIds
  rw [map_assignIdsFrom (fun i (t : Option String × Option String × Option String) =>
      ProviderRow.mk (i + 1) t.1 t.2.1 t.2.2)
      (fun d => (d.doctor_name, d.doctor_title, d.doctor_department))
      (fun i a => rfl)]
  exact List.map_id _

theorem map_ids_create_dim_provider (src : List Row) :
    (create_dim_provider src).map (fun d => d.provider_id) =
      List.range' 1 (providerSorted src).length := by
  unfold create_dim_provider assignIds
  exact map_key_assignIdsFrom (fun i (t : Option String × Option String × Option String) =>
      ProviderRow.mk (i + 1) t.1 t.2.1 t.2.2)
    (fun d => d.provider_id) (fun i a => rfl) (providerSorted src) 0

theorem length_create_dim_provider (src : List Row) :
    (create_dim_provider src).length = (providerSorted src).length :=
  length_assignIdsFrom _ _ 0

theorem map_attrs_create_dim_location (src : List Row) :
    (create_dim_location src).map (fun d => (d.clinic_name, d.room_number)) =
      locationSorted src := by
  unfold create_dim_location assignIds
  rw [map_assignIdsFrom (fun i (t : Option String × Option String) =>
      LocationRow.mk (i + 1) t.1 t.2)
      (fun d => (d.clinic_name, d.room_number)) (fun i a => rfl)]
  exact List.map_id _

theorem map_ids_create_dim_location (src : List Row) :
    (create_dim_location src).map (fun d => d.location_id) =
      List.range' 1 (locationSorted src).length := by
  unfold create_dim_location assignIds
  exact map_key_assignIdsFrom (fun i (t : Option String × Option String) =>
      LocationRow.mk (i + 1) t.1 t.2)
    (fun d => d.location_id) (fun i a => rfl) (locationSorted src) 0

theorem length_create_dim_location (src : List Row) :
    (create_dim_location src).length = (locationSorted src).length :=
  length_assignIdsFrom _ _ 0

theorem map_attrs_create_dim_primary (src : List Row) :
    (create_dim_primary_diagnosis src).map
        (fun d => (d.primary_diagnosis_code, d.primary_diagnosis_desc)) =
      primaryBase src := by
  unfold create_dim_primary_diagnosis assignIds
  rw [map_assignIdsFrom (fun i (t : Option String × Option String) =>
      PrimaryDiagRow.mk (i + 1) t.1 t.2)
      (fun d => (d.primary_diagnosis_code, d.primary_diagnosis_desc))
      (fun i a => rfl)]
  exact List.map_id _

theorem map_ids_create_dim_primary (src : List Row) :
    (create_dim_primary_diagnosis src).map
        (fun d => d.primary_diagnosis_id) =
      List.range' 1 (primaryBase src).length := by
  unfold create_dim_primary_diagnosis assignIds
  exact map_key_assignIdsFrom (fun i (t : Option String × Option String) =>
      PrimaryDiagRow.mk (i + 1) t.1 t.2)
    (fun d => d.primary_diagnosis_id) (fun i a => rfl) (primaryBase src) 0

theorem length_create_dim_primary (src : List Row) :
    (create_dim_primary_diagnosis src).length = (primaryBase src).length :=
  length_assignIdsFrom _ _ 0

theorem map_ids_create_dim_secondary (src : List Row) :
    (create_dim_secondary_diagnosis src).map
        (fun d => d.secondary_diagnosis_id) =
      List.range' 1 (secondaryBase src).length := by
  unfold create_dim_secondary_diagnosis assignIds
  exact map_key_assignIdsFrom (fun i (t : Option String × Option String) =>
      SecondaryDiagRow.mk (i + 1) t.1 t.2)
    (fun d => d.secondary_diagnosis_id) (fun i a => rfl) (secondaryBase src) 0

theorem length_create_dim_secondary (src : List Row) :
    (create_dim_secondary_diagnosis src).length = (secondaryBase src).length :=
  length_assignIdsFrom _ _ 0

theorem map_attrs_create_dim_treatment (src : List Row) :
    (create_dim_treatment src).map
        (fun d => (d.treatment_code, d.treatment_desc)) =
      treatmentBase src := by
  unfold create_dim_treatment assignIds
  rw [map_assignIdsFrom (fun i (t : Option String × Option String) =>
      TreatmentRow.mk (i + 1) t.1 t.2)
      (fun d => (d.treatment_code, d.treatment_desc)) (fun i a => rfl)]
  exact List.map_id _

theorem map_ids_create_dim_treatment (src : List Row) :
    (create_dim_treatment src).map (fun d => d.treatment_id) =
      List.range' 1 (treatmentBase src).length := by
  unfold create_dim_treatment assignIds
  exact map_key_assignIdsFrom (fun i (t : Option String × Option String) =>
      TreatmentRow.mk (i + 1) t.1 t.2)
    (fun d => d.treatment_id) (fun i a => rfl) (treatmentBase src) 0

theorem length_create_dim_treatment (src : List Row) :
    (create_dim_treatment src).length = (treatmentBase src).length :=
  length_assignIdsFrom _ _ 0

theorem exists_mem_optMatches {δ : Type} (dim : List δ) (m : δ → Bool) :
    ∃ x, x ∈ optMatches dim m := by
  unfold optMatches
  cases h : dim.filter m with
  | nil => exact ⟨none, List.mem_singleton_self _⟩
  | cons d ds => exact ⟨some d, List.mem_map.mpr ⟨d, List.mem_cons_self _ _, rfl⟩⟩

theorem optMatches_of_no_match {δ : Type} {dim : List δ} {m : δ → Bool}
    (h : ∀ d ∈ dim, m d = false) : optMatches dim m = [none] := by
  unfold optMatches
  have : dim.filter m = [] := by
    apply List.filter_eq_nil_iff.mpr
    intro d hd
    simp [h d hd]
  rw [this]

theorem visit_id_of_mem_factRowsOf {r : Row} {dp : List ProviderRow}
    {dl : List LocationRow} {dpd : List PrimaryDiagRow}
    {dsd : List SecondaryDiagRow} {dt : List TreatmentRow} {f : FactRow}
    (h : f ∈ factRowsOf r dp dl dpd dsd dt) : f.visit_id = r.visit_id := by
  simp only [factRowsOf, List.mem_flatMap, List.mem_map] at h
  obtain ⟨p, -, lo, -, pd, -, sd, -, t, -, rfl⟩ := h
  rfl

theorem provider_id_none_of_mem_factRowsOf {r : Row} {dp : List ProviderRow}
    {dl : List LocationRow} {dpd : List PrimaryDiagRow}
    {dsd : List SecondaryDiagRow} {dt : List TreatmentRow} {f : FactRow}
    (hnm : ∀ d ∈ dp, matchProvider r d = false)
    (h : f ∈ factRowsOf r dp dl dpd dsd dt) : f.provider_id = none := by
  rw [factRowsOf, optMatches_of_no_match hnm] at h
  simp only [List.flatMap_cons, List.flatMap_nil, List.append_nil,
    List.mem_flatMap, List.mem_map] at h
  obtain ⟨lo, -, pd, -, sd, -, t, -, rfl⟩ := h
  rfl

theorem exists_mem_factRowsOf (r : Row) (dp : List ProviderRow)
    (dl : List LocationRow) (dpd : List PrimaryDiagRow)
    (dsd : List SecondaryDiagRow) (dt : List TreatmentRow) :
    ∃ f, f ∈ factRowsOf r dp dl dpd dsd dt := by
  obtain ⟨p, hp⟩ := exists_mem_optMatches dp (matchProvider r)
  obtain ⟨lo, hlo⟩ := exists_mem_optMatches dl (matchLocation r)
  obtain ⟨pd, hpd⟩ := exists_mem_optMatches dpd (matchPrimary r)
  obtain ⟨sd, hsd⟩ := exists_mem_optMatches dsd (matchSecondary r)
  obtain ⟨t, ht⟩ := exists_mem_optMatches dt (matchTreatment r)
  refine ⟨⟨r.visit_id, r.patient_id, r.insurance_id, r.billing_id,
    lo.map fun d => d.location_id, p.map fun d => d.provider_id,
    pd.map fun d => d.primary_diagnosis_id,
    sd.map fun d => d.secondary_diagnosis_id,
    t.map fun d => d.treatment_id, r.prescription_id, r.lab_order_id,
    r.visit_date, r.visit_type⟩, ?_⟩
  simp only [factRowsOf, List.mem_flatMap, List.mem_map]
  exact ⟨p, hp, lo, hlo, pd, hpd, sd, hsd, t, ht, rfl⟩

theorem mem_map_visit_factJoined (src : List Row) (dp : List ProviderRow)
    (dl : List LocationRow) (dpd : List PrimaryDiagRow)
    (dsd : List SecondaryDiagRow) (dt : List TreatmentRow) (v : Option String) :
    v ∈ ((src.flatMap fun r => factRowsOf r dp dl dpd dsd dt).map
        fun f => f.visit_id) ↔
      v ∈ src.map fun r => r.visit_id := by
  simp only [List.mem_map, List.mem_flatMap]
  constructor
  · rintro ⟨f, ⟨r, hr, hf⟩, rfl⟩
    exact ⟨r, hr, (visit_id_of_mem_factRowsOf hf).symm⟩
  · rintro ⟨r, hr, rfl⟩
    obtain ⟨f, hf⟩ := exists_mem_factRowsOf r dp dl dpd dsd dt
    exact ⟨f, ⟨r, hr, hf⟩, visit_id_of_mem_factRowsOf hf⟩

theorem nodup_visit_create_fact_visit (src : List Row) (dp : List ProviderRow)
    (dl : List LocationRow) (dpd : List PrimaryDiagRow)
    (dsd : List SecondaryDiagRow) (dt : List TreatmentRow) :
    ((create_fact_visit src dp dl dpd dsd dt).map fun f => f.visit_id).Nodup :=
  nodup_map_key_dedupByKey _ _

theorem mem_map_visit_create_fact_visit (src : List Row)
    (dp : List ProviderRow) (dl : List LocationRow) (dpd : List PrimaryDiagRow)
    (dsd : List SecondaryDiagRow) (dt : List TreatmentRow) (v : Option String) :
    v ∈ ((create_fact_visit src dp dl dpd dsd dt).map fun f => f.visit_id) ↔
      v ∈ src.map fun r => r.visit_id := by
  unfold create_fact_visit
  rw [mem_map_key_dedupByKey]
  exact mem_map_visit_factJoined src dp dl dpd dsd dt v

theorem length_create_fact_visit (src : List Row) (dp : List ProviderRow)
    (dl : List LocationRow) (dpd : List PrimaryDiagRow)
    (dsd : List SecondaryDiagRow) (dt : List TreatmentRow) :
    (create_fact_visit src dp dl dpd dsd dt).length =
      ((src.map fun r => r.visit_id).dedup).length := by
  unfold create_fact_visit
  rw [length_dedupByKey]
  have h₁ : (((src.flatMap fun r => factRowsOf r dp dl dpd dsd dt).map
      fun f => f.visit_id).dedup).Nodup := List.nodup_dedup _
  have h₂ : ((src.map fun r => r.visit_id).dedup).Nodup := List.nodup_dedup _
  exact ((List.perm_ext_iff_of_nodup h₁ h₂).mpr fun v => by
    rw [List.mem_dedup, List.mem_dedup]
    exact mem_map_visit_factJoined src dp dl dpd dsd dt v).length_eq

theorem map_attrs_create_dim_secondary (src : List Row) :
    (create_dim_secondary_diagnosis src).map
        (fun d => (d.secondary_diagnosis_code, d.secondary_diagnosis_desc)) =
      secondaryBase src := by
  unfold create_dim_secondary_diagnosis assignIds
  rw [map_assignIdsFrom (fun i (t : Option String × Option String) =>
      SecondaryDiagRow.mk (i + 1) t.1 t.2)
      (fun d => (d.secondary_diagnosis_code, d.secondary_diagnosis_desc))
      (fun i a => rfl)]
  exact List.map_id _

theorem primaryBase_perm (s₁ s₂ : List Row) (h : List.Perm s₁ s₂) :
    List.Perm (primaryBase s₁) (primaryBase s₂) :=
  (dedupById_perm_of_perm (h.map primaryKey)).filter _

theorem secondaryBase_perm (s₁ s₂ : List Row) (h : List.Perm s₁ s₂) :
    List.Perm (secondaryBase s₁) (secondaryBase s₂) :=
  (dedupById_perm_of_perm (h.map secondaryKey)).filter _

theorem treatmentBase_perm (s₁ s₂ : List Row) (h : List.Perm s₁ s₂) :
    List.Perm (treatmentBase s₁) (treatmentBase s₂) :=
  (dedupById_perm_of_perm (h.map treatmentKey)).filter _

theorem of_mem_leftJoin {α β γ : Type} {l : List α} {r : List β}
    {m : α → β → Bool} {f : α → Option β → γ} {x : γ}
    (h : x ∈ leftJoin l r m f) :
    ∃ a ∈ l, x = f a none ∨ ∃ b, x = f a (some b) := by
  unfold leftJoin at h
  obtain ⟨a, ha, hx⟩ := List.mem_flatMap.mp h
  refine ⟨a, ha, ?_⟩
  cases hfil : r.filter (m a) with
  | nil =>
    rw [hfil] at hx
    exact Or.inl (List.mem_singleton.mp hx)
  | cons b bs =>
    rw [hfil] at hx
    obtain ⟨y, -, hy⟩ := List.mem_map.mp hx
    exact Or.inr ⟨y, hy.symm⟩

theorem exists_mem_leftJoin {α β γ : Type} {l : List α} (r : List β)
    (m : α → β → Bool) (f : α → Option β → γ) {a : α} (ha : a ∈ l) :
    ∃ x ∈ leftJoin l r m f, ∃ ob, x = f a ob := by
  cases hfil : r.filter (m a) with
  | nil => exact ⟨f a none, mem_leftJoin_of_no_match ha hfil, none, rfl⟩
  | cons b bs =>
    refine ⟨f a (some b), mem_leftJoin_of_match ha ?_, some b, rfl⟩
    rw [hfil]
    exact List.mem_cons_self _ _

theorem mem_map_pid_create_dim_patient (src : List Row) (v : Option String) :
    (v ∈ (create_dim_patient src).map fun q => q.attrs.patient_id) ↔
      v ∈ src.map fun r => r.patient_id := by
  constructor
  · intro hv
    obtain ⟨q, hq, rfl⟩ := List.mem_map.mp hv
    obtain ⟨a, ha, hcase⟩ := of_mem_leftJoin hq
    have hqa : q.attrs = a := by
      rcases hcase with rfl | ⟨b, rfl⟩ <;> rfl
    have h1 : a.patient_id ∈
        ((dedupByKey (fun x => x.patient_id) (src.map patientProj)).map
          fun x => x.patient_id) := List.mem_map.mpr ⟨a, ha, rfl⟩
    have h2 := (mem_map_key_dedupByKey _ _ _).mp h1
    rw [List.map_map] at h2
    rw [hqa]
    exact h2
  · intro hv
    obtain ⟨r, hr, rfl⟩ := List.mem_map.mp hv
    have hproj : patientProj r ∈ src.map patientProj :=
      List.mem_map.mpr ⟨r, hr, rfl⟩
    obtain ⟨a, ha, hak⟩ :=
      @exists_rep_dedupByKey PatientAttrs (Option String) _
        (fun x => x.patient_id) _ _ hproj
    obtain ⟨x, hx, ob, hxa⟩ := exists_mem_leftJoin (derive_patient_status src)
      (fun p s => nullEqS p.patient_id s.patient_id)
      (fun p so => DimPatientRow.mk p (so.map fun s => s.patient_status)) ha
    refine List.mem_map.mpr ⟨x, hx, ?_⟩
    rw [hxa]
    exact hak

theorem location_id_none_of_mem_factRowsOf {r : Row} {dp : List ProviderRow}
    {dl : List LocationRow} {dpd : List PrimaryDiagRow}
    {dsd : List SecondaryDiagRow} {dt : List TreatmentRow} {f : FactRow}
    (hnm : ∀ d ∈ dl, matchLocation r d = false)
    (h : f ∈ factRowsOf r dp dl dpd dsd dt) : f.location_id = none := by
  rw [factRowsOf, optMatches_of_no_match hnm] at h
  simp only [List.mem_flatMap, List.mem_map, List.mem_singleton] at h
  obtain ⟨p, -, lo, hlo, pd, -, sd, -, t, -, rfl⟩ := h
  rw [hlo]
  rfl

theorem primary_id_none_of_mem_factRowsOf {r : Row} {dp : List ProviderRow}
    {dl : List LocationRow} {dpd : List PrimaryDiagRow}
    {dsd : List SecondaryDiagRow} {dt : List TreatmentRow} {f : FactRow}
    (hnm : ∀ d ∈ dpd, matchPrimary r d = false)
    (h : f ∈ factRowsOf r dp dl dpd dsd dt) :
    f.primary_diagnosis_id = none := by
  rw [factRowsOf, optMatches_of_no_match hnm] at h
  simp only [List.mem_flatMap, List.mem_map, List.mem_singleton] at h
  obtain ⟨p, -, lo, -, pd, hpd, sd, -, t, -, rfl⟩ := h
  rw [hpd]
  rfl

theorem secondary_id_none_of_mem_factRowsOf {r : Row} {dp : List ProviderRow}
    {dl : List LocationRow} {dpd : List PrimaryDiagRow}
    {dsd : List SecondaryDiagRow} {dt : List TreatmentRow} {f : FactRow}
    (hnm : ∀ d ∈ dsd, matchSecondary r d = false)
    (h : f ∈ factRowsOf r dp dl dpd dsd dt) :
    f.secondary_diagnosis_id = none := by
  rw [factRowsOf, optMatches_of_no_match hnm] at h
  simp only [List.mem_flatMap, List.mem_map, List.mem_singleton] at h
  obtain ⟨p, -, lo, -, pd, -, sd, hsd, t, -, rfl⟩ := h
  rw [hsd]
  rfl

theorem treatment_id_none_of_mem_factRowsOf {r : Row} {dp : List ProviderRow}
    {dl : List LocationRow} {dpd : List PrimaryDiagRow}
    {dsd : List SecondaryDiagRow} {dt : List TreatmentRow} {f : FactRow}
    (hnm : ∀ d ∈ dt, matchTreatment r d = false)
    (h : f ∈ factRowsOf r dp dl dpd dsd dt) : f.treatment_id = none := by
  rw [factRowsOf, optMatches_of_no_match hnm] at h
  simp only [List.mem_flatMap, List.mem_map, List.mem_singleton] at h
  obtain ⟨p, -, lo, -, pd, -, sd, -, t, ht, rfl⟩ := h
  rw [ht]
  rfl

/-- C1: for every source dataset, the fact relation produced by
`create_fact_visit` contains at most one row per `visit_id` (its `visit_id`
column has no duplicates), the set of `visit_id` values in the fact
relation equals the set of `visit_id` values in the source, its row count
equals the number of distinct source `visit_id` values, and the two counts
compared by `verify_data_completeness` agree.  Proved for arbitrary
dimension inputs. -/
theorem fact_visit_ids_unique_and_complete (src : List Row)
    (dp : List ProviderRow) (dl : List LocationRow) (dpd : List PrimaryDiagRow)
    (dsd : List SecondaryDiagRow) (dt : List TreatmentRow) :
    ((create_fact_visit src dp dl dpd dsd dt).map fun f => f.visit_id).Nodup ∧
    (∀ v, (v ∈ (create_fact_visit src dp dl dpd dsd dt).map
        fun f => f.visit_id) ↔ v ∈ src.map fun r => r.visit_id) ∧
    (create_fact_visit src dp dl dpd dsd dt).length =
      ((src.map fun r => r.visit_id).dedup).length ∧
    (verify_data_completeness src
        (create_fact_visit src dp dl dpd dsd dt)).1 =
      (verify_data_completeness src
        (create_fact_visit src dp dl dpd dsd dt)).2 := by
  refine ⟨nodup_visit_create_fact_visit src dp dl dpd dsd dt,
    mem_map_visit_create_fact_visit src dp dl dpd dsd dt,
    length_create_fact_visit src dp dl dpd dsd dt, ?_⟩
  unfold verify_data_completeness
  have h₁ : (dedupByKey id (src.map fun r => r.visit_id)).length =
      ((src.map fun r => r.visit_id).dedup).length := by
    rw [length_dedupByKey]
    simp
  have hnd : ((create_fact_visit src dp dl dpd dsd dt).map
      fun f => f.visit_id).Nodup := nodup_visit_create_fact_visit _ _ _ _ _ _
  have h₂ : (dedupByKey id ((create_fact_visit src dp dl dpd dsd dt).map
      fun f => f.visit_id)).length =
      ((src.map fun r => r.visit_id).dedup).length := by
    rw [length_dedupByKey]
    simp only [List.map_id]
    rw [hnd.dedup, List.length_map]
    exact length_create_fact_visit src dp dl dpd dsd dt
  simp only
  rw [h₁, h₂]

/-- C2 counterexample: in `srcC2` two source rows share `visit_id "V1"`;
the second (`rowC2B`) has an all-`NULL` doctor triple, so it matches no
row of the provider dimension, yet the final fact table (after the
`dropDuplicates(["visit_id"])` step of `create_fact_visit`) contains no
row with a `NULL` `provider_id` at all: the claim's fact row with a null
provider foreign key for `rowC2B` was dropped. -/
theorem fact_outer_join_null_fk_dropped_on_dup_visit :
    rowC2B ∈ srcC2 ∧
    (∀ d ∈ create_dim_provider srcC2, matchProvider rowC2B d = false) ∧
    ∀ f ∈ pipelineFact srcC2, f.provider_id ≠ none := by
  refine ⟨by decide, by decide, by decide⟩

/-- C2 amended: a source row is never dropped by the outer joins — some
fact row always carries its `visit_id`; and when the source `visit_id`
values are unique (the expected case, the final dedup being defensive), a
source row whose business-key attributes match no row of a dimension
(any of the five joined dimensions) yields a fact row with its `visit_id`
and a `NULL` foreign key for that dimension. -/
theorem fact_outer_join_retains_rows (src : List Row) (dp : List ProviderRow)
    (dl : List LocationRow) (dpd : List PrimaryDiagRow)
    (dsd : List SecondaryDiagRow) (dt : List TreatmentRow) (r : Row)
    (hr : r ∈ src) :
    (∃ f ∈ create_fact_visit src dp dl dpd dsd dt,
      f.visit_id = r.visit_id) ∧
    ((src.map fun x => x.visit_id).Nodup →
      ((∀ d ∈ dp, matchProvider r d = false) →
        ∃ f ∈ create_fact_visit src dp dl dpd dsd dt,
          f.visit_id = r.visit_id ∧ f.provider_id = none) ∧
      ((∀ d ∈ dl, matchLocation r d = false) →
        ∃ f ∈ create_fact_visit src dp dl dpd dsd dt,
          f.visit_id = r.visit_id ∧ f.location_id = none) ∧
      ((∀ d ∈ dpd, matchPrimary r d = false) →
        ∃ f ∈ create_fact_visit src dp dl dpd dsd dt,
          f.visit_id = r.visit_id ∧ f.primary_diagnosis_id = none) ∧
      ((∀ d ∈ dsd, matchSecondary r d = false) →
        ∃ f ∈ create_fact_visit src dp dl dpd dsd dt,
          f.visit_id = r.visit_id ∧ f.secondary_diagnosis_id = none) ∧
      ((∀ d ∈ dt, matchTreatment r d = false) →
        ∃ f ∈ create_fact_visit src dp dl dpd dsd dt,
          f.visit_id = r.visit_id ∧ f.treatment_id = none)) := by
  obtain ⟨f0, hf0⟩ := exists_mem_factRowsOf r dp dl dpd dsd dt
  have hf0all : f0 ∈ src.flatMap fun x => factRowsOf x dp dl dpd dsd dt :=
    List.mem_flatMap.mpr ⟨r, hr, hf0⟩
  obtain ⟨y, hy, hky⟩ :=
    @exists_rep_dedupByKey FactRow (Option String) _ (fun f => f.visit_id)
      _ _ hf0all
  have hyv : y.visit_id = r.visit_id := by
    rw [hky]
    exact visit_id_of_mem_factRowsOf hf0
  constructor
  · exact ⟨y, hy, hyv⟩
  · intro hnd
    have hyall : y ∈ src.flatMap fun x => factRowsOf x dp dl dpd dsd dt :=
      mem_of_mem_dedupByKey hy
    obtain ⟨r', hr', hyr'⟩ := List.mem_flatMap.mp hyall
    have : r'.visit_id = r.visit_id := by
      rw [← visit_id_of_mem_factRowsOf hyr']
      exact hyv
    have hrr : r' = r := List.inj_on_of_nodup_map hnd hr' hr this
    subst hrr
    exact ⟨fun hnm => ⟨y, hy, hyv,
        provider_id_none_of_mem_factRowsOf hnm hyr'⟩,
      fun hnm => ⟨y, hy, hyv,
        location_id_none_of_mem_factRowsOf hnm hyr'⟩,
      fun hnm => ⟨y, hy, hyv,
        primary_id_none_of_mem_factRowsOf hnm hyr'⟩,
      fun hnm => ⟨y, hy, hyv,
        secondary_id_none_of_mem_factRowsOf hnm hyr'⟩,
      fun hnm => ⟨y, hy, hyv,
        treatment_id_none_of_mem_factRowsOf hnm hyr'⟩⟩

/-- C2 witness: on the one-row source `srcC2w`, whose business-key columns
are all `NULL` (so the row matches no row of any dimension), the theorem
yields, for each of the five joined dimensions, a fact row with
`visit_id "V1"` and a `NULL` foreign key for that dimension. -/
theorem fact_outer_join_retains_rows_witness :
    (∃ f ∈ create_fact_visit srcC2w (create_dim_provider srcC2w)
        (create_dim_location srcC2w) (create_dim_primary_diagnosis srcC2w)
        (create_dim_secondary_diagnosis srcC2w) (create_dim_treatment srcC2w),
      f.visit_id = rowC2B.visit_id ∧ f.provider_id = none) ∧
    (∃ f ∈ create_fact_visit srcC2w (create_dim_provider srcC2w)
        (create_dim_location srcC2w) (create_dim_primary_diagnosis srcC2w)
        (create_dim_secondary_diagnosis srcC2w) (create_dim_treatment srcC2w),
      f.visit_id = rowC2B.visit_id ∧ f.location_id = none) ∧
    (∃ f ∈ create_fact_visit srcC2w (create_dim_provider srcC2w)
        (create_dim_location srcC2w) (create_dim_primary_diagnosis srcC2w)
        (create_dim_secondary_diagnosis srcC2w) (create_dim_treatment srcC2w),
      f.visit_id = rowC2B.visit_id ∧ f.primary_diagnosis_id = none) ∧
    (∃ f ∈ create_fact_visit srcC2w (create_dim_provider srcC2w)
        (create_dim_location srcC2w) (create_dim_primary_diagnosis srcC2w)
        (create_dim_secondary_diagnosis srcC2w) (create_dim_treatment srcC2w),
      f.visit_id = rowC2B.visit_id ∧ f.secondary_diagnosis_id = none) ∧
    ∃ f ∈ create_fact_visit srcC2w (create_dim_provider srcC2w)
        (create_dim_location srcC2w) (create_dim_primary_diagnosis srcC2w)
        (create_dim_secondary_diagnosis srcC2w) (create_dim_treatment srcC2w),
      f.visit_id = rowC2B.visit_id ∧ f.treatment_id = none := by
  have h := (fact_outer_join_retains_rows srcC2w (create_dim_provider srcC2w)
    (create_dim_location srcC2w) (create_dim_primary_diagnosis srcC2w)
    (create_dim_secondary_diagnosis srcC2w) (create_dim_treatment srcC2w)
    rowC2B (by decide)).2 (by decide)
  exact ⟨h.1 (by decide), h.2.1 (by decide), h.2.2.1 (by decide),
    h.2.2.2.1 (by decide), h.2.2.2.2 (by decide)⟩

/-- C3 counterexample: `create_dim_primary_diagnosis` assigns surrogate
keys in deduplicated source order, not in the ascending business-key order
of spec step 3: on `srcC3` the code gives key 1 to `("B", "b")`, while the
spec-modelled step-3 ordering gives key 1 to `("A", "a")`. -/
theorem primary_diagnosis_ids_not_in_spec_sort_order :
    create_dim_primary_diagnosis srcC3 =
      [⟨1, some "B", some "b"⟩, ⟨2, some "A", some "a"⟩] ∧
    primary_diagnosis_spec_step3_order srcC3 =
      [⟨1, some "A", some "a"⟩, ⟨2, some "B", some "b"⟩] ∧
    create_dim_primary_diagnosis srcC3 ≠
      primary_diagnosis_spec_step3_order srcC3 := by
  refine ⟨by decide, by decide, by decide⟩

/-- C3 amended: in every derived dimension the surrogate keys are exactly
the contiguous set `{1..N}` (`N` the number of output rows) with no
repeats, assigned in the order of the row sequence at assignment time —
the `(doctor_title, doctor_department)`-sorted order for Provider, the
`(clinic_name, room_number)`-sorted order for Location, and the
deduplicated source order (no sort step) for the two diagnosis dimensions
and Treatment. -/
theorem surrogate_keys_contiguous_from_one (src : List Row) :
    (create_dim_provider src).map (fun d => d.provider_id) =
      List.range' 1 (create_dim_provider src).length ∧
    (create_dim_location src).map (fun d => d.location_id) =
      List.range' 1 (create_dim_location src).length ∧
    (create_dim_primary_diagnosis src).map
        (fun d => d.primary_diagnosis_id) =
      List.range' 1 (create_dim_primary_diagnosis src).length ∧
    (create_dim_secondary_diagnosis src).map
        (fun d => d.secondary_diagnosis_id) =
      List.range' 1 (create_dim_secondary_diagnosis src).length ∧
    (create_dim_treatment src).map (fun d => d.treatment_id) =
      List.range' 1 (create_dim_treatment src).length := by
  refine ⟨?_, ?_, ?_, ?_, ?_⟩
  · rw [length_create_dim_provider]
    exact map_ids_create_dim_provider src
  · rw [length_create_dim_location]
    exact map_ids_create_dim_location src
  · rw [length_create_dim_primary]
    exact map_ids_create_dim_primary src
  · rw [length_create_dim_secondary]
    exact map_ids_create_dim_secondary src
  · rw [length_create_dim_treatment]
    exact map_ids_create_dim_treatment src

/-- C4 counterexample: the sort key of `create_dim_provider` omits
`doctor_name`, so two distinct business keys sharing `(doctor_title,
doctor_department)` are not ordered by it: the same set of source rows in
two arrival orders (`srcC4a` is a permutation of `srcC4b`) produces
different surrogate-key assignments, so the numbering order is not fully
specified by the row contents. -/
theorem provider_numbering_depends_on_row_order :
    List.Perm srcC4a srcC4b ∧
    create_dim_provider srcC4a =
      [⟨1, some "A", some "T", some "D"⟩, ⟨2, some "B", some "T", some "D"⟩] ∧
    create_dim_provider srcC4b =
      [⟨1, some "B", some "T", some "D"⟩, ⟨2, some "A", some "T", some "D"⟩] ∧
    create_dim_provider srcC4a ≠ create_dim_provider srcC4b := by
  refine ⟨by decide, by decide, by decide, by decide⟩

/-- C4 amended: only `create_dim_location` sorts by all of its business-key
columns (`clinic_name, room_number`); its numbering is therefore fully
specified by the row contents — any two arrival orders of the same rows
produce the identical dimension, keys included.  `create_dim_provider`
sorts only by `(doctor_title, doctor_department)`, and the diagnosis and
treatment builders apply no sort at all, so their numbering depends on the
source row order. -/
theorem location_numbering_content_determined (s₁ s₂ : List Row)
    (h : List.Perm s₁ s₂) : create_dim_location s₁ = create_dim_location s₂ :=
  dimLocation_eq_of_perm h

/-- C4 witness: the permuted sources `srcC4a` and `srcC4b` yield the same
location dimension. -/
theorem location_numbering_content_determined_witness :
    create_dim_location srcC4a = create_dim_location srcC4b :=
  location_numbering_content_determined srcC4a srcC4b (by decide)

/-- C5: every derived dimension (Provider, Location, PrimaryDiagnosis,
SecondaryDiagnosis, Treatment) holds exactly one row per distinct
business-key tuple of the source with no null component, and no tuple with
a null component enters the dimension: each output's business-key columns
are duplicate-free, and a tuple appears in the output precisely when it
occurs in the source and has no `NULL` component. -/
theorem derived_dims_one_row_per_nonnull_business_key (src : List Row) :
    (((create_dim_provider src).map fun d =>
        (d.doctor_name, d.doctor_title, d.doctor_department)).Nodup ∧
      ∀ t, (t ∈ (create_dim_provider src).map fun d =>
          (d.doctor_name, d.doctor_title, d.doctor_department)) ↔
        t ∈ src.map providerKey ∧
          t.1 ≠ none ∧ t.2.1 ≠ none ∧ t.2.2 ≠ none) ∧
    (((create_dim_location src).map fun d =>
        (d.clinic_name, d.room_number)).Nodup ∧
      ∀ t, (t ∈ (create_dim_location src).map fun d =>
          (d.clinic_name, d.room_number)) ↔
        t ∈ src.map locationKey ∧ t.1 ≠ none ∧ t.2 ≠ none) ∧
    (((create_dim_primary_diagnosis src).map fun d =>
        (d.primary_diagnosis_code, d.primary_diagnosis_desc)).Nodup ∧
      ∀ t, (t ∈ (create_dim_primary_diagnosis src).map fun d =>
          (d.primary_diagnosis_code, d.primary_diagnosis_desc)) ↔
        t ∈ src.map primaryKey ∧ t.1 ≠ none ∧ t.2 ≠ none) ∧
    (((create_dim_secondary_diagnosis src).map fun d =>
        (d.secondary_diagnosis_code, d.secondary_diagnosis_desc)).Nodup ∧
      ∀ t, (t ∈ (create_dim_secondary_diagnosis src).map fun d =>
          (d.secondary_diagnosis_code, d.secondary_diagnosis_desc)) ↔
        t ∈ src.map secondaryKey ∧ t.1 ≠ none ∧ t.2 ≠ none) ∧
    (((create_dim_treatment src).map fun d =>
        (d.treatment_code, d.treatment_desc)).Nodup ∧
      ∀ t, (t ∈ (create_dim_treatment src).map fun d =>
          (d.treatment_code, d.treatment_desc)) ↔
        t ∈ src.map treatmentKey ∧ t.1 ≠ none ∧ t.2 ≠ none) := by
  refine ⟨?_, ?_, ?_, ?_, ?_⟩
  · rw [map_attrs_create_dim_provider]
    constructor
    · exact ((providerSorted_perm_base src).nodup_iff).mpr
        ((nodup_dedupById _).filter _)
    · intro t
      rw [(providerSorted_perm_base src).mem_iff]
      unfold providerBase
      rw [List.mem_filter, mem_dedupById]
      simp [Option.isSome_iff_ne_none, and_assoc]
  · rw [map_attrs_create_dim_location]
    constructor
    · exact ((locationSorted_perm_base src).nodup_iff).mpr
        ((nodup_dedupById _).filter _)
    · intro t
      rw [(locationSorted_perm_base src).mem_iff]
      unfold locationBase
      rw [List.mem_filter, mem_dedupById]
      simp [Option.isSome_iff_ne_none, and_assoc]
  · rw [map_attrs_create_dim_primary]
    constructor
    · exact (nodup_dedupById _).filter _
    · intro t
      unfold primaryBase
      rw [List.mem_filter, mem_dedupById]
      simp [Option.isSome_iff_ne_none, and_assoc]
  · rw [map_attrs_create_dim_secondary]
    constructor
    · exact (nodup_dedupById _).filter _
    · intro t
      unfold secondaryBase
      rw [List.mem_filter, mem_dedupById]
      simp [Option.isSome_iff_ne_none, and_assoc]
  · rw [map_attrs_create_dim_treatment]
    constructor
    · exact (nodup_dedupById _).filter _
    · intro t
      unfold treatmentBase
      rw [List.mem_filter, mem_dedupById]
      simp [Option.isSome_iff_ne_none, and_assoc]

/-- C6: for every patient group with a non-null maximum visit date `d`,
`derive_patient_status` classifies the group `"Inactive"` exactly when
`d` is on-or-before the cutoff (equality included) and `"Active"`
exactly otherwise. -/
theorem patient_status_cutoff_boundary (src : List Row) (row : StatusRow)
    (hrow : row ∈ derive_patient_status src) (d : Nat)
    (hd : row.last_visit = some d) :
    (row.patient_status = "Inactive" ↔ d ≤ cutoffTs) ∧
    (row.patient_status = "Active" ↔ ¬ d ≤ cutoffTs) := by
  unfold derive_patient_status at hrow
  rcases List.mem_map.mp hrow with ⟨p, hp, rfl⟩
  simp only at hd
  by_cases hle : d ≤ cutoffTs
  · simp [hd, hle]
  · simp [hd, hle]

/-- C6 witness: a patient whose only visit is exactly at the cutoff
timestamp is `"Inactive"`; one whose only visit is on 2022-01-01 is
`"Active"`. -/
theorem patient_status_cutoff_boundary_witness :
    (((StatusRow.mk (some "P1") (some cutoffTs) "Inactive").patient_status =
        "Inactive" ↔ cutoffTs ≤ cutoffTs) ∧
      ((StatusRow.mk (some "P1") (some cutoffTs) "Inactive").patient_status =
        "Active" ↔ ¬ cutoffTs ≤ cutoffTs)) ∧
    (((StatusRow.mk (some "P2") (some 20220101) "Active").patient_status =
        "Inactive" ↔ 20220101 ≤ cutoffTs) ∧
      ((StatusRow.mk (some "P2") (some 20220101) "Active").patient_status =
        "Active" ↔ ¬ 20220101 ≤ cutoffTs)) :=
  ⟨patient_status_cutoff_boundary srcC6 _ (by decide) cutoffTs (by decide),
   patient_status_cutoff_boundary srcC6 _ (by decide) 20220101 (by decide)⟩

/-- C7 counterexample: a patient whose every visit date is `NULL` is not
excluded from the classification — the `NULL` max date makes the `when`
condition `NULL`, so the `otherwise` branch assigns `"Active"`, and the
patient appears in `DimPatient` with status `"Active"`, not `NULL`. -/
theorem all_null_dates_patient_gets_active_status :
    (∀ r ∈ srcC7, r.visit_date = none) ∧
    derive_patient_status srcC7 = [⟨some "P1", none, "Active"⟩] ∧
    (create_dim_patient srcC7).map (fun q => q.patient_status) =
      [some "Active"] := by
  refine ⟨by decide, by decide, by decide⟩

/-- C7 amended: a patient (with non-null id) whose every visit date is
`NULL` gets max date `NULL` and status `"Active"` from
`derive_patient_status`, and appears in `DimPatient` with status
`some "Active"` via the left join — not with a null status. -/
theorem all_null_dates_patient_status_amended (src : List Row) (p : String)
    (hp : some p ∈ src.map fun r => r.patient_id)
    (hnull : ∀ r ∈ src, r.patient_id = some p → r.visit_date = none) :
    (∃ srow ∈ derive_patient_status src,
      srow.patient_id = some p ∧ srow.last_visit = none ∧
        srow.patient_status = "Active") ∧
    ∃ drow ∈ create_dim_patient src,
      drow.attrs.patient_id = some p ∧ drow.patient_status = some "Active" := by
  have hlv : lastVisitOf src (some p) = none := by
    unfold lastVisitOf
    have hfm : ((src.filter fun r =>
        decide (r.patient_id = some p)).filterMap fun r => r.visit_date) = [] := by
      apply List.filterMap_eq_nil_iff.mpr
      intro r hr
      rcases List.mem_filter.mp hr with ⟨hrs, hrp⟩
      exact hnull r hrs (of_decide_eq_true hrp)
    rw [hfm]
    rfl
  have hsrow : (⟨some p, none, "Active"⟩ : StatusRow) ∈
      derive_patient_status src := by
    unfold derive_patient_status
    apply List.mem_map.mpr
    refine ⟨some p, (mem_dedupById _ _).mpr hp, ?_⟩
    simp [hlv]
  refine ⟨⟨_, hsrow, rfl, rfl, rfl⟩, ?_⟩
  obtain ⟨r, hr, hrp⟩ := List.mem_map.mp hp
  have hproj : patientProj r ∈ src.map patientProj :=
    List.mem_map.mpr ⟨r, hr, rfl⟩
  obtain ⟨a, ha, hak⟩ :=
    @exists_rep_dedupByKey PatientAttrs (Option String) _
      (fun x => x.patient_id) _ _ hproj
  have hap : a.patient_id = some p := by
    rw [hak]
    exact hrp
  have hmatch : (⟨some p, none, "Active"⟩ : StatusRow) ∈
      (derive_patient_status src).filter fun s =>
        nullEqS a.patient_id s.patient_id := by
    apply List.mem_filter.mpr
    refine ⟨hsrow, ?_⟩
    rw [hap]
    simp [nullEqS]
  refine ⟨⟨a, some "Active"⟩, ?_, hap, rfl⟩
  unfold create_dim_patient
  exact @mem_leftJoin_of_match PatientAttrs StatusRow DimPatientRow _ _
    (fun x s => nullEqS x.patient_id s.patient_id)
    (fun x so => DimPatientRow.mk x (so.map fun s => s.patient_status))
    _ _ ha hmatch

/-- C7 amended witness: the all-null-dates patient of `srcC7`. -/
theorem all_null_dates_patient_status_amended_witness :
    (∃ srow ∈ derive_patient_status srcC7,
      srow.patient_id = some "P1" ∧ srow.last_visit = none ∧
        srow.patient_status = "Active") ∧
    ∃ drow ∈ create_dim_patient srcC7,
      drow.attrs.patient_id = some "P1" ∧
        drow.patient_status = some "Active" :=
  all_null_dates_patient_status_amended srcC7 "P1" (by decide) (by decide)

/-- C8 counterexample: corrupting the dimension row's `doctor_name` to
`NULL` after the fact table is built makes the dimension path and the
source path differ (`NULL` vs `"A"`), yet `verify_fact_join_accuracy`
reports 0 mismatches out of 1 checked row, because Spark's `!=` is `NULL`
(not `TRUE`) when one side is `NULL`. -/
theorem reconciliation_ignores_null_attribute_mismatch :
    verify_fact_join_accuracy (pipelineFact srcC8) dimC8corrupt srcC8 =
      (1, 0) ∧
    (provJoined (pipelineFact srcC8) dimC8corrupt srcC8).map
        (fun c => (c.dim_doctor_name, c.doctor_name)) =
      [(none, some "A")] := by
  refine ⟨by decide, by decide⟩

/-- C8 amended: a checked row is counted as a mismatch exactly when, in
some compared column, the dimension path and the source path both hold
non-`NULL` values and those values differ; a disagreement in which one
side is `NULL` and the other is not is never counted. -/
theorem reconciliation_mismatch_characterization (fact : List FactRow)
    (dp : List ProviderRow) (src : List Row) (c : ProvCheckRow) :
    c ∈ provMismatchRows fact dp src ↔
      c ∈ provJoined fact dp src ∧
        ((∃ a b, c.dim_doctor_name = some a ∧ c.doctor_name = some b ∧
            a ≠ b) ∨
         (∃ a b, c.dim_doctor_title = some a ∧ c.doctor_title = some b ∧
            a ≠ b) ∨
         (∃ a b, c.dim_doctor_department = some a ∧
            c.doctor_department = some b ∧ a ≠ b)) := by
  unfold provMismatchRows
  rw [List.mem_filter]
  simp only [Bool.or_eq_true, neqBothSome_eq_true_iff]
  rw [or_assoc]

/-- C9 counterexample: modelling a re-run on the unchanged source as a
permutation of the row sequence, the fact relations of the two runs are
not identical in row set or attribute values: on `srcC4a`/`srcC4b` (the
same rows in two arrival orders, with tied provider sort keys) the
provider numbering shifts, so visit `"V1"` carries `provider_id 1` in one
run and `provider_id 2` in the other. -/
theorem fact_fk_values_differ_across_permuted_runs :
    List.Perm srcC4a srcC4b ∧
    (pipelineFact srcC4a).map (fun f => (f.visit_id, f.provider_id)) =
      [(some "V1", some 1), (some "V2", some 2)] ∧
    (pipelineFact srcC4b).map (fun f => (f.visit_id, f.provider_id)) =
      [(some "V2", some 1), (some "V1", some 2)] ∧
    (some "V1", some 1) ∈
      (pipelineFact srcC4a).map (fun f => (f.visit_id, f.provider_id)) ∧
    (some "V1", some 1) ∉
      (pipelineFact srcC4b).map (fun f => (f.visit_id, f.provider_id)) := by
  refine ⟨by decide, by decide, by decide, by decide, by decide⟩

/-- C9 amended: modelling a re-run on the unchanged source as a
permutation of the row sequence: the Location dimension is identical
across the two runs, keys included (its step-3 sort key is the full
business key); the Provider dimension is identical whenever its step-3
sort key `(doctor_title, doctor_department)` uniquely orders the distinct
provider rows; the business-key attribute row-sets of the Provider,
PrimaryDiagnosis, SecondaryDiagnosis and Treatment dimensions agree as
sets (permutations) unconditionally (Location's agree by its full
equality); the identifier-column value sets of the Patient, Insurance,
Billing, Prescription and LabOrder identity dimensions agree; and the
fact tables hold the same set of `visit_id` values.  Surrogate-key values
— and with them the fact relation's foreign-key attribute values — are
guaranteed identical only under the sort-key-uniqueness condition. -/
theorem pipeline_rerun_row_sets_and_keys (s₁ s₂ : List Row)
    (h : List.Perm s₁ s₂) :
    create_dim_location s₁ = create_dim_location s₂ ∧
    ((((providerBase s₁).map fun t => (t.2.1, t.2.2)).Nodup →
      create_dim_provider s₁ = create_dim_provider s₂)) ∧
    List.Perm
      ((create_dim_provider s₁).map fun d =>
        (d.doctor_name, d.doctor_title, d.doctor_department))
      ((create_dim_provider s₂).map fun d =>
        (d.doctor_name, d.doctor_title, d.doctor_department)) ∧
    List.Perm
      ((create_dim_primary_diagnosis s₁).map fun d =>
        (d.primary_diagnosis_code, d.primary_diagnosis_desc))
      ((create_dim_primary_diagnosis s₂).map fun d =>
        (d.primary_diagnosis_code, d.primary_diagnosis_desc)) ∧
    List.Perm
      ((create_dim_secondary_diagnosis s₁).map fun d =>
        (d.secondary_diagnosis_code, d.secondary_diagnosis_desc))
      ((create_dim_secondary_diagnosis s₂).map fun d =>
        (d.secondary_diagnosis_code, d.secondary_diagnosis_desc)) ∧
    List.Perm
      ((create_dim_treatment s₁).map fun d =>
        (d.treatment_code, d.treatment_desc))
      ((create_dim_treatment s₂).map fun d =>
        (d.treatment_code, d.treatment_desc)) ∧
    (∀ v, (v ∈ (create_dim_patient s₁).map fun q => q.attrs.patient_id) ↔
      v ∈ (create_dim_patient s₂).map fun q => q.attrs.patient_id) ∧
    (∀ v, (v ∈ (create_dim_insurance s₁).map fun q => q.insurance_id) ↔
      v ∈ (create_dim_insurance s₂).map fun q => q.insurance_id) ∧
    (∀ v, (v ∈ (create_dim_billing s₁).map fun q => q.billing_id) ↔
      v ∈ (create_dim_billing s₂).map fun q => q.billing_id) ∧
    (∀ v, (v ∈ (create_dim_prescription s₁).map
        fun q => q.prescription_id) ↔
      v ∈ (create_dim_prescription s₂).map fun q => q.prescription_id) ∧
    (∀ v, (v ∈ (create_dim_lab_order s₁).map fun q => q.lab_order_id) ↔
      v ∈ (create_dim_lab_order s₂).map fun q => q.lab_order_id) ∧
    ∀ v, (v ∈ (pipelineFact s₁).map fun f => f.visit_id) ↔
      v ∈ (pipelineFact s₂).map fun f => f.visit_id := by
  refine ⟨dimLocation_eq_of_perm h,
    fun hk => dimProvider_eq_of_perm h hk, ?_, ?_, ?_, ?_, ?_, ?_, ?_, ?_,
    ?_, ?_⟩
  · rw [map_attrs_create_dim_provider, map_attrs_create_dim_provider]
    exact ((providerSorted_perm_base s₁).trans
      (providerBase_perm s₁ s₂ h)).trans (providerSorted_perm_base s₂).symm
  · rw [map_attrs_create_dim_primary, map_attrs_create_dim_primary]
    exact primaryBase_perm s₁ s₂ h
  · rw [map_attrs_create_dim_secondary, map_attrs_create_dim_secondary]
    exact secondaryBase_perm s₁ s₂ h
  · rw [map_attrs_create_dim_treatment, map_attrs_create_dim_treatment]
    exact treatmentBase_perm s₁ s₂ h
  · intro v
    rw [mem_map_pid_create_dim_patient, mem_map_pid_create_dim_patient]
    exact (h.map fun r => r.patient_id).mem_iff
  · intro v
    unfold create_dim_insurance
    rw [mem_map_key_dedupByKey, mem_map_key_dedupByKey, List.map_map,
      List.map_map]
    exact (h.map fun r => (insuranceProj r).insurance_id).mem_iff
  · intro v
    unfold create_dim_billing
    rw [mem_map_key_dedupByKey, mem_map_key_dedupByKey, List.map_map,
      List.map_map]
    exact (h.map fun r => (billingProj r).billing_id).mem_iff
  · intro v
    unfold create_dim_prescription
    rw [mem_map_key_dedupByKey, mem_map_key_dedupByKey]
    exact (((h.map prescriptionProj).filter _).map
      fun x => x.prescription_id).mem_iff
  · intro v
    unfold create_dim_lab_order
    rw [mem_map_key_dedupByKey, mem_map_key_dedupByKey]
    exact (((h.map labOrderProj).filter _).map
      fun x => x.lab_order_id).mem_iff
  · intro v
    unfold pipelineFact
    rw [mem_map_visit_create_fact_visit, mem_map_visit_create_fact_visit]
    exact (h.map fun r => r.visit_id).mem_iff

/-- C9 witness: on the permuted sources `srcC9a`/`srcC9b`, whose provider
sort keys are distinct, the provider dimensions of the two runs are
identical, surrogate keys included. -/
theorem pipeline_rerun_row_sets_and_keys_witness :
    create_dim_provider srcC9a = create_dim_provider srcC9b :=
  (pipeline_rerun_row_sets_and_keys srcC9a srcC9b (by decide)).2.1 (by decide)

/-- C10: `create_dim_prescription` and `create_dim_lab_order` filter out
null identifiers before deduplicating, so their outputs hold no
null-identifier row and each identifier once; `create_dim_insurance` and
`create_dim_billing` apply no null filter, so their key columns are
duplicate-free but a row with a `NULL` key is retained exactly when the
source has one. -/
theorem identity_dims_null_id_handling (src : List Row) :
    (∀ q ∈ create_dim_prescription src, q.prescription_id ≠ none) ∧
    ((create_dim_prescription src).map fun q => q.prescription_id).Nodup ∧
    (∀ q ∈ create_dim_lab_order src, q.lab_order_id ≠ none) ∧
    ((create_dim_lab_order src).map fun q => q.lab_order_id).Nodup ∧
    ((create_dim_insurance src).map fun q => q.insurance_id).Nodup ∧
    ((∃ q ∈ create_dim_insurance src, q.insurance_id = none) ↔
      ∃ r ∈ src, r.insurance_id = none) ∧
    ((create_dim_billing src).map fun q => q.billing_id).Nodup ∧
    ((∃ q ∈ create_dim_billing src, q.billing_id = none) ↔
      ∃ r ∈ src, r.billing_id = none) := by
  refine ⟨?_, nodup_map_key_dedupByKey _ _, ?_,
    nodup_map_key_dedupByKey _ _, nodup_map_key_dedupByKey _ _, ?_,
    nodup_map_key_dedupByKey _ _, ?_⟩
  · intro q hq
    have hmem := mem_of_mem_dedupByKey hq
    have := (List.mem_filter.mp hmem).2
    simpa [Option.isSome_iff_ne_none] using this
  · intro q hq
    have hmem := mem_of_mem_dedupByKey hq
    have := (List.mem_filter.mp hmem).2
    simpa [Option.isSome_iff_ne_none] using this
  · constructor
    · rintro ⟨q, hq, hqn⟩
      have h1 : (none : Option String) ∈ (create_dim_insurance src).map
          fun x => x.insurance_id := List.mem_map.mpr ⟨q, hq, hqn⟩
      have h2 := (mem_map_key_dedupByKey _ _ _).mp h1
      rw [List.map_map] at h2
      obtain ⟨r, hr, hrn⟩ := List.mem_map.mp h2
      exact ⟨r, hr, hrn⟩
    · rintro ⟨r, hr, hrn⟩
      have h1 : (none : Option String) ∈
          (src.map insuranceProj).map fun x => x.insurance_id := by
        rw [List.map_map]
        exact List.mem_map.mpr ⟨r, hr, hrn⟩
      have h2 := (mem_map_key_dedupByKey
        (fun x : InsuranceRow => x.insurance_id) (src.map insuranceProj)
        none).mpr h1
      obtain ⟨q, hq, hqn⟩ := List.mem_map.mp h2
      exact ⟨q, hq, hqn⟩
  · constructor
    · rintro ⟨q, hq, hqn⟩
      have h1 : (none : Option String) ∈ (create_dim_billing src).map
          fun x => x.billing_id := List.mem_map.mpr ⟨q, hq, hqn⟩
      have h2 := (mem_map_key_dedupByKey _ _ _).mp h1
      rw [List.map_map] at h2
      obtain ⟨r, hr, hrn⟩ := List.mem_map.mp h2
      exact ⟨r, hr, hrn⟩
    · rintro ⟨r, hr, hrn⟩
      have h1 : (none : Option String) ∈
          (src.map billingProj).map fun x => x.billing_id := by
        rw [List.map_map]
        exact List.mem_map.mpr ⟨r, hr, hrn⟩
      have h2 := (mem_map_key_dedupByKey
        (fun x : BillingRow => x.billing_id) (src.map billingProj)
        none).mpr h1
      obtain ⟨q, hq, hqn⟩ := List.mem_map.mp h2
      exact ⟨q, hq, hqn⟩
